import Mathlib

/-!
Verification of the sequential message-processing pipeline of the
student-wellbeing monitoring service: the safety screener, the sequential
checkpoint processor, the risk calculator, the temporal analyzer and the
adaptive-sensitivity service.

Shallow embedding conventions:
* Python floats are modelled as exact rationals (`ℚ`); decimal literals such
  as `0.95` become `19/20`.  The one place where IEEE-754 double rounding is
  observable at the granularity the properties speak about — the
  `int(len(scores) * 0.7)` split index in the pre-decision-calm detector —
  is modelled bit-exactly (`pythonSplit` below).
* `re.search` / substring tests are implemented by an executable matcher over
  the token shapes actually occurring in the source patterns (literals and
  `\s+` / `\d+` classes).
* Collaborator effects (the text-generation service, database reads) are
  inputs: an LLM call is a value of `LLMOutcome`, database contents are
  fields of a `World` record.  Exceptions raised by collaborators are
  outcome values; Python `try/except` blocks become branches on them.
* Pydantic `Field(ge=0.0, le=1.0)` validation on the risk schemas is modelled
  by an `Except` result: constructing factors with an out-of-range confidence
  is a validation error, as in the source.
* Free-text `reason` / `reasoning` strings interpolating numbers are omitted
  from factor records; no property mentions them.
-/

/-! ## A small executable matcher for the regex shapes used by the source

The source's patterns only use literal runs, `\s+`, `\d+` and top-level
alternation (which we expand).  Matching is case-insensitive, mirroring
`re.IGNORECASE` / prior lowercasing in the source. -/

/-- Whitespace characters matched by `\s` (ASCII subset used by the source texts). -/
def isPySpace (c : Char) : Bool :=
  c = ' ' || c = '\t' || c = '\n' || c = '\r' || c = '\x0b' || c = '\x0c'

/-- One token of a source regex: a literal run, `\s+`, or `\d+`. -/
inductive Tok where
  | lit (s : String)
  | ws
  | digits
deriving Repr, DecidableEq

/-- Match a lowercase literal against the head of the text, case-insensitively. -/
def litMatch : List Char → List Char → Option (List Char)
  | [], cs => some cs
  | _ :: _, [] => none
  | p :: ps, c :: cs => if c.toLower = p then litMatch ps cs else none

/-- Match a token list at the head of the text, returning the rest on success.
`\s+` and `\d+` consume greedily; since every following token starts with a
character of a different class, greedy matching coincides with regex search. -/
def matchToks : List Tok → List Char → Option (List Char)
  | [], cs => some cs
  | .lit s :: ts, cs =>
    match litMatch s.toList cs with
    | some rest => matchToks ts rest
    | none => none
  | .ws :: ts, cs =>
    match cs with
    | [] => none
    | c :: rest => if isPySpace c then matchToks ts (rest.dropWhile isPySpace) else none
  | .digits :: ts, cs =>
    match cs with
    | [] => none
    | c :: rest => if c.isDigit then matchToks ts (rest.dropWhile Char.isDigit) else none

/-- `re.search`: does the token pattern match at any position of the text? -/
def searchToks (p : List Tok) : List Char → Bool
  | [] => (matchToks p []).isSome
  | c :: cs => (matchToks p (c :: cs)).isSome || searchToks p cs

/-- Python's `str.lower()` (kernel-reducible form of `String.toLower`). -/
def pyLower (cs : List Char) : List Char :=
  cs.map Char.toLower

/-- Python's `sub in s` substring test. -/
def containsSubstr (s sub : String) : Bool :=
  searchToks [.lit sub] s.toList

/-- One pass of `re.sub(pattern, repl, text)`: replace each leftmost
non-overlapping match (fuel = length, enough since every source pattern
consumes at least one character). -/
def subToksAux (p : List Tok) (repl : List Char) : ℕ → List Char → List Char
  | 0, cs => cs
  | _ + 1, [] => []
  | n + 1, c :: cs =>
    match matchToks p (c :: cs) with
    | some rest => repl ++ subToksAux p repl n rest
    | none => c :: subToksAux p repl n cs

/-- `re.sub` over a string. -/
def reSub (p : List Tok) (repl : String) (text : String) : String :=
  ⟨subToksAux p repl.toList (text.toList.length + 1) text.toList⟩

/-! ## SafetyScreener (src/app/services/analysis/safety_screener.py) -/

/-- `SafetyScreener.CRISIS_KEYWORDS`, each with its regex source text (used in
the emitted flag) and its token form. -/
def CRISIS_KEYWORDS : List (String × List Tok) :=
  [ ("kill\\s+myself", [.lit "kill", .ws, .lit "myself"]),
    ("end\\s+it\\s+all", [.lit "end", .ws, .lit "it", .ws, .lit "all"]),
    ("suicide", [.lit "suicide"]),
    ("goodbye\\s+forever", [.lit "goodbye", .ws, .lit "forever"]),
    ("won't\\s+be\\s+here\\s+tomorrow",
      [.lit "won't", .ws, .lit "be", .ws, .lit "here", .ws, .lit "tomorrow"]),
    ("final\\s+message", [.lit "final", .ws, .lit "message"]),
    ("ending\\s+my\\s+life", [.lit "ending", .ws, .lit "my", .ws, .lit "life"]),
    ("taking\\s+my\\s+life", [.lit "taking", .ws, .lit "my", .ws, .lit "life"]) ]

/-- `SafetyScreener.PLAN_INDICATORS`. -/
def PLAN_INDICATORS : List (String × List Tok) :=
  [ ("plan\\s+to\\s+kill", [.lit "plan", .ws, .lit "to", .ws, .lit "kill"]),
    ("going\\s+to\\s+end", [.lit "going", .ws, .lit "to", .ws, .lit "end"]),
    ("method\\s+to", [.lit "method", .ws, .lit "to"]),
    ("way\\s+to\\s+die", [.lit "way", .ws, .lit "to", .ws, .lit "die"]) ]

/-- Result of `SafetyScreener.screen_immediate`. -/
structure ScreenResult where
  crisisDetected : Bool
  flags : List String
  reason : Option String
deriving Repr, DecidableEq

/-- `SafetyScreener.screen_immediate`: lowercase the text, collect a flag for
every matching crisis keyword and plan indicator, set `crisis_detected` on
any match. -/
def screenImmediate (messageText : String) : ScreenResult :=
  let textLower := pyLower messageText.toList
  let kwFlags := (CRISIS_KEYWORDS.filter fun p => searchToks p.2 textLower).map
    fun p => "crisis_keyword: " ++ p.1
  let planFlags := (PLAN_INDICATORS.filter fun p => searchToks p.2 textLower).map
    fun p => "plan_indicator: " ++ p.1
  let flags := kwFlags ++ planFlags
  let crisis := !flags.isEmpty
  { crisisDetected := crisis
    flags := flags
    reason := if crisis then some "immediate_safety_concern" else none }

/-- `SafetyScreener.filter_response`: three `re.sub` passes redacting
medical-advice phrasings. -/
def filterResponse (response : String) : String :=
  let r1 := reSub [.lit "take", .ws, .digits, .ws, .lit "mg"] "[medical advice removed]" response
  let r2 := reSub [.lit "prescribe", .ws] "[medical advice removed]" r1
  reSub [.lit "you", .ws, .lit "should", .ws, .lit "take", .ws, .lit "medication"]
    "[medical advice removed]" r2

example : (screenImmediate "I want to kill  myself").crisisDetected = true := by decide
example : (screenImmediate "I plan to kill them in chess").crisisDetected = true := by decide
example : (screenImmediate "what a lovely day").crisisDetected = false := by decide
example : (screenImmediate "I want to KILL MYSELF").flags =
    ["crisis_keyword: kill\\s+myself"] := by decide

/-! ## TemporalAnalyzer (src/app/services/analysis/temporal_analyzer.py)

`_detect_pre_decision_calm` computes its split index as
`int(len(scores) * 0.7)`, evaluated in IEEE-754 double precision.  We model
that computation bit-exactly: the double nearest to 0.7 is
`3152519739159347 / 2^52`, the product with `n` is rounded to 53 significant
bits (round to nearest, ties to even), and `int` truncates. -/

/-- The integer significand of the IEEE-754 double nearest to 0.7
(the double's value is `DOUBLE_07_NUM / 2^52`). -/
def DOUBLE_07_NUM : ℕ := 3152519739159347

/-- Number of halvings needed to bring `v` below `2 ^ 53` (fuel-based so it
reduces in the kernel; `excess53` supplies fuel `v`, always sufficient). -/
def excess53Aux : ℕ → ℕ → ℕ
  | 0, _ => 0
  | fuel + 1, v => if 2 ^ 53 ≤ v then excess53Aux fuel (v / 2) + 1 else 0

/-- `bitlength v - 53` for `v ≥ 2 ^ 53`: the number of low bits an IEEE-754
double must round away to represent `v`. -/
def excess53 (v : ℕ) : ℕ :=
  excess53Aux v v

/-- Round a natural number to 53 significant bits, round-to-nearest ties-to-even.
This is exactly how an IEEE-754 double multiplication rounds the exact integer
product of two significands. -/
def roundSig53 (v : ℕ) : ℕ :=
  if v < 2 ^ 53 then v
  else
    let k := excess53 v
    let q := v / 2 ^ k
    let r := v % 2 ^ k
    (if 2 * r > 2 ^ k || (2 * r = 2 ^ k && q % 2 = 1) then q + 1 else q) * 2 ^ k

/-- Python's `int(n * 0.7)` for a natural `n`: the exact product
`n * double(0.7)` is rounded to double precision, then truncated. -/
def pythonSplit (n : ℕ) : ℕ :=
  roundSig53 (n * DOUBLE_07_NUM) / 2 ^ 52

example : pythonSplit 7 = 4 := by decide
example : pythonSplit 4 = 2 := by decide
example : pythonSplit 10 = 7 := by decide
-- double rounding makes `int(90 * 0.7)` 62, not 63
example : pythonSplit 90 = 62 := by decide

/-- One point of the risk-score history (a read-projection of persisted risk
profiles): the date in fractional days, the mapped risk score (LOW=1..CRISIS=4)
and the stored confidence. -/
structure TrajEntry where
  date : ℚ
  riskScore : ℚ
  confidence : ℚ
deriving Repr, DecidableEq

/-- `(a - b).days` for two datetimes: whole days, floored. -/
def daysBetween (a b : ℚ) : ℤ :=
  ⌊a - b⌋

/-- `np.mean` over exact rationals. -/
def meanQ (l : List ℚ) : ℚ :=
  l.sum / l.length

/-- Population variance (`np.std` squared, ddof = 0). -/
def varQ (l : List ℚ) : ℚ :=
  meanQ (l.map fun s => (s - meanQ l) ^ 2)

/-- `TemporalAnalyzer._calculate_velocity`: average daily change between the
first and last history point. -/
def calculateVelocity (history : List TrajEntry) : ℚ :=
  if history.length < 2 then 0
  else
    match history.head?, history.getLast? with
    | some h0, some hN =>
      let totalDays := daysBetween hN.date h0.date
      if totalDays = 0 then 0 else (hN.riskScore - h0.riskScore) / totalDays
    | _, _ => 0

/-- `TemporalAnalyzer._calculate_acceleration`: change in velocity between the
two halves, normalised by half the elapsed days. -/
def calculateAcceleration (history : List TrajEntry) : ℚ :=
  if history.length < 3 then 0
  else
    let mid := history.length / 2
    let v1 := calculateVelocity (history.take (mid + 1))
    let v2 := calculateVelocity (history.drop mid)
    match history.head?, history.getLast? with
    | some h0, some hN =>
      let totalDays := daysBetween hN.date h0.date
      if totalDays = 0 then 0 else (v2 - v1) / ((totalDays : ℚ) / 2)
    | _, _ => 0

/-- `TemporalAnalyzer._detect_pre_decision_calm`: sustained high distress over
the first 70% of the series followed by a sharp drop.  Requires at least 5
points; the split index is Python's `int(len(scores) * 0.7)`. -/
def detectPreDecisionCalm (history : List TrajEntry) : Bool :=
  if history.length < 5 then false
  else
    let scores := history.map (·.riskScore)
    let splitPoint := pythonSplit scores.length
    let firstPart := scores.take splitPoint
    let lastPart := scores.drop splitPoint
    if firstPart.length = 0 || lastPart.length = 0 then false
    else
      let firstMean := meanQ firstPart
      let lastMean := meanQ lastPart
      decide (firstMean ≥ 3 ∧ lastMean < 2 ∧ firstMean - lastMean > 3 / 2)

/-- `TemporalAnalyzer._detect_cyclical_pattern`: count sign changes between
successive differences; flag when the count exceeds `len(scores) * 0.5`. -/
def cyclicalSignChanges (scores : List ℚ) : ℕ :=
  let differences := (scores.zip scores.tail).map fun p => p.2 - p.1
  ((differences.zip differences.tail).filter fun p =>
    decide (p.1 > 0) ≠ decide (p.2 > 0)).length

/-- `TemporalAnalyzer._detect_cyclical_pattern` (needs at least 6 points). -/
def detectCyclicalPattern (scores : List ℚ) : Bool :=
  if scores.length < 6 then false
  else decide ((cyclicalSignChanges scores : ℚ) > scores.length * (1 / 2))

/-- `TemporalAnalyzer._detect_disengagement`: message frequency in the late
half of the window dropping below half the early-half frequency. -/
def detectDisengagement (startDate : ℚ) (dates : List ℚ) : Bool :=
  if dates.length < 3 then false
  else
    match dates.getLast? with
    | none => false
    | some lastDate =>
      let totalDays := daysBetween lastDate startDate
      if totalDays = 0 then false
      else
        let midDate := startDate + (totalDays : ℚ) / 2
        let earlyCount := (dates.filter fun d => decide (d < midDate)).length
        let lateCount := (dates.filter fun d => decide (d ≥ midDate)).length
        let earlyPeriodDays := daysBetween midDate startDate
        let latePeriodDays := daysBetween lastDate midDate
        if earlyPeriodDays = 0 || latePeriodDays = 0 then false
        else
          decide ((lateCount : ℚ) / latePeriodDays <
            ((earlyCount : ℚ) / earlyPeriodDays) * (1 / 2))

/-- The five boolean pattern flags of `TemporalAnalyzer._detect_patterns`. -/
structure PatternFlags where
  rapidDeterioration : Bool
  preDecisionCalm : Bool
  chronicElevated : Bool
  cyclical : Bool
  disengagement : Bool
deriving Repr, DecidableEq

/-- `TemporalAnalyzer._detect_patterns`.  `chronic_elevated`'s condition
`np.std(scores) < 0.5` is encoded as `variance < 0.25` (both sides of the
source comparison are nonnegative, so the encodings agree). -/
def detectPatterns (history : List TrajEntry) (velocity acceleration : ℚ) : PatternFlags :=
  let scores := history.map (·.riskScore)
  let dates := history.map (·.date)
  { rapidDeterioration := decide (velocity < -(1 / 2) ∧ acceleration < 0)
    preDecisionCalm := detectPreDecisionCalm history
    chronicElevated := decide (meanQ scores > 5 / 2 ∧ varQ scores < 1 / 4)
    cyclical := detectCyclicalPattern scores
    disengagement :=
      match history.head? with
      | some h0 => detectDisengagement h0.date dates
      | none => false }

/-- `TemporalAnalyzer._calculate_risk_multiplier`: product of the per-pattern
multipliers of the fired patterns. -/
def calculateRiskMultiplier (patterns : PatternFlags) : ℚ :=
  let m1 : ℚ := if patterns.rapidDeterioration then 1 * 2 else 1
  let m2 := if patterns.preDecisionCalm then m1 * 3 else m1
  let m3 := if patterns.chronicElevated then m2 * (3 / 2) else m2
  if patterns.disengagement then m3 * (13 / 10) else m3

/-- Result of `TemporalAnalyzer.analyze_trajectory`.  On the short-history
branch the source dict carries no `pattern_details`, `risk_multiplier` or
`history` keys; every consumer reads them with falsy defaults, which the
all-false / neutral values below reproduce. -/
structure TrajectoryResult where
  patterns : List String
  patternDetails : PatternFlags
  velocity : ℚ
  acceleration : ℚ
  riskMultiplier : ℚ
deriving Repr, DecidableEq

/-! ## AdaptiveSensitivityService
(src/backend/app/services/learning/adaptive_sensitivity.py) -/

/-- The thresholds touched by `AdaptiveSensitivityService.adjust_thresholds`
(the `PHQ9`, `GAD7` and `confidence` entries of `current_thresholds`). -/
structure Thresholds where
  phq9 : ℚ
  gad7 : ℚ
  confidence : ℚ
deriving Repr, DecidableEq

/-- `AdaptiveSensitivityService.adjust_thresholds`: two independent rules,
applied in sequence to the same mutable threshold dict.  `fp`, `tp`, `fn` are
the `false_positives` / `true_positives` / `false_negatives` counts of the
performance-metrics dict. -/
def adjustThresholds (fp tp fn : ℕ) (th : Thresholds) : Thresholds :=
  let th1 :=
    if (fp : ℚ) > (tp : ℚ) * (1 / 2) then
      { phq9 := th.phq9 * (11 / 10), gad7 := th.gad7 * (11 / 10),
        confidence := th.confidence * (11 / 10) }
    else th
  if fn > 0 then
    { phq9 := th1.phq9 * (19 / 20), gad7 := th1.gad7 * (19 / 20),
      confidence := th1.confidence * (19 / 20) }
  else th1

/-- `AdaptiveSensitivityService.get_deployment_phase`. -/
def getDeploymentPhase (feedbackCount : ℕ) : String :=
  if feedbackCount < 100 then "COLD_START"
  else if feedbackCount < 500 then "CALIBRATION"
  else "OPTIMIZATION"

/-- `TemporalAnalyzer.analyze_trajectory` on an already-loaded history. -/
def analyzeTrajectory (history : List TrajEntry) : TrajectoryResult :=
  if history.length < 3 then
    { patterns := [], patternDetails := ⟨false, false, false, false, false⟩,
      velocity := 0, acceleration := 0, riskMultiplier := 1 }
  else
    let velocity := calculateVelocity history
    let acceleration := calculateAcceleration history
    let patterns := detectPatterns history velocity acceleration
    { patterns :=
        ["rapid_deterioration", "pre_decision_calm", "chronic_elevated",
         "cyclical", "disengagement"]
      patternDetails := patterns
      velocity := velocity
      acceleration := acceleration
      riskMultiplier := calculateRiskMultiplier patterns }

/-! ## RiskCalculator (src/backend/app/services/alerts/risk_calculator.py) -/

/-- The four risk levels (`app.schemas.risk.RiskLevel`). -/
inductive RiskLevel where
  | LOW
  | MEDIUM
  | HIGH
  | CRISIS
deriving Repr, DecidableEq

/-- The string `.value` of a `RiskLevel`. -/
def RiskLevel.str : RiskLevel → String
  | .LOW => "LOW"
  | .MEDIUM => "MEDIUM"
  | .HIGH => "HIGH"
  | .CRISIS => "CRISIS"

/-- The numeric code used throughout the source
(`{"LOW": 1, "MEDIUM": 2, "HIGH": 3, "CRISIS": 4}`). -/
def RiskLevel.code : RiskLevel → ℕ
  | .LOW => 1
  | .MEDIUM => 2
  | .HIGH => 3
  | .CRISIS => 4

/-- The slice of the enriched context dict read by `RiskCalculator`:
checkpoint-1 safety flags, conversation-history length and baseline
availability (confidence calibration), C-SSRS score, behavioural metadata and
the optional `concern_indicators` key (depression fallback). -/
structure Context where
  safetyFlags : List String
  crisisDetected : Bool
  historyLen : ℕ
  hasBaseline : Bool
  baselineTypicalSentiment : Bool
  cssrsScore : Option ℤ
  engagementDrop : ℚ
  concernIndicators : List String
deriving Repr, DecidableEq

/-- The `suicidal_ideation` object of a parsed LLM contextual-analysis
response.  `none` fields model absent (or wrongly-typed) JSON keys. -/
structure RawSI where
  present : Option Bool
  isLiteral : Option Bool
  confidence : Option ℚ
deriving Repr, DecidableEq

/-- The `depression_indicators` object of a parsed LLM response. -/
structure RawDep where
  severityEstimate : Option String
  confidence : Option ℚ
deriving Repr, DecidableEq

/-- The `overall_context` object of a parsed LLM response. -/
structure RawCtx where
  tone : String
deriving Repr, DecidableEq

/-- A parsed LLM contextual-analysis JSON document; a `none` top-level key
fails `_validate_llm_response`'s required-keys check. -/
structure RawAnalysis where
  suicidalIdeation : Option RawSI
  depressionIndicators : Option RawDep
  overallContext : Option RawCtx
deriving Repr, DecidableEq

/-- Outcome of one `llm.generate` call for contextual analysis:
the call raised, the response was not parsable JSON, or it parsed. -/
inductive LLMOutcome where
  | genError
  | badJson
  | parsed (a : RawAnalysis)
deriving Repr, DecidableEq

/-- `RiskCalculator._validate_llm_response` on a parsed document whose three
required keys are present: `suicidal_ideation.present` must be a bool and
`suicidal_ideation.confidence` a number in [0, 1]. -/
def validateSI (si : RawSI) : Bool :=
  si.present.isSome &&
    match si.confidence with
    | some c => decide (0 ≤ c) && decide (c ≤ 1)
    | none => false

/-- The suicidal-ideation part of `_calibrate_confidence`: four independent
multiplicative factors, each followed by a clamp at 1.0. -/
def calibrateSIConfidence (rawConf : ℚ) (isLiteral : Option Bool) (present : Bool)
    (tone : String) (ctx : Context) : ℚ :=
  let c1 := if ctx.historyLen < 3 then rawConf * (4 / 5)
    else if 10 ≤ ctx.historyLen then rawConf * (11 / 10)
    else rawConf
  let c1 := min c1 1
  let c2 := if ctx.hasBaseline && ctx.baselineTypicalSentiment then c1 * (11 / 10) else c1
  let c2 := min c2 1
  let containsSarcasm := containsSubstr ⟨pyLower tone.toList⟩ "sarcasm"
  let c3 := if !isLiteral.getD true || containsSarcasm then c2 * (9 / 10) else c2
  let c3 := min c3 1
  let c4 := if !ctx.safetyFlags.isEmpty && present then c3 * (11 / 10) else c3
  min c4 1

/-- The depression part of `_calibrate_confidence`: history-depth factor, then
a clamp at 1.0 (no lower clamp in the source). -/
def calibrateDepConfidence (rawConf : ℚ) (historyLen : ℕ) : ℚ :=
  let c := if historyLen < 3 then rawConf * (4 / 5)
    else if 10 ≤ historyLen then rawConf * (11 / 10)
    else rawConf
  min c 1

/-- The calibrated `suicidal_ideation` part of an `_analyze_contextual_risk`
result (fields read by the downstream assessors, via `.get` with the shown
defaults). -/
structure CalSI where
  present : Bool
  isLiteral : Option Bool
  confidence : ℚ
deriving Repr, DecidableEq

/-- The calibrated `depression_indicators` part. -/
structure CalDep where
  severityEstimate : Option String
  confidence : ℚ
deriving Repr, DecidableEq

/-- An `_analyze_contextual_risk` result dict. -/
structure ContextualResult where
  si : CalSI
  dep : CalDep
  tone : String
  requiresHumanReview : Bool
deriving Repr, DecidableEq

/-- The suicidal-ideation regexes of `_fallback_keyword_analysis`, with the
`(myself|my\s+self)` alternations expanded. -/
def FALLBACK_SUICIDAL_PATTERNS : List (List Tok) :=
  [ [.lit "kill", .ws, .lit "myself"],
    [.lit "kill", .ws, .lit "my", .ws, .lit "self"],
    [.lit "killing", .ws, .lit "myself"],
    [.lit "killing", .ws, .lit "my", .ws, .lit "self"],
    [.lit "end", .ws, .lit "it", .ws, .lit "all"],
    [.lit "ending", .ws, .lit "my", .ws, .lit "life"],
    [.lit "taking", .ws, .lit "my", .ws, .lit "life"],
    [.lit "suicide"],
    [.lit "commit", .ws, .lit "suicide"] ]

/-- The keyword test of `_fallback_keyword_analysis`. -/
def fallbackKeywordMatch (messageText : String) : Bool :=
  let textLower := pyLower messageText.toList
  FALLBACK_SUICIDAL_PATTERNS.any fun p => searchToks p textLower

/-- `RiskCalculator._fallback_keyword_analysis`: conservative keyword-only
analysis used whenever the LLM is unavailable or its response unusable.
Always sets `requires_human_review`. -/
def fallbackKeywordAnalysis (messageText : String) : ContextualResult :=
  let kw := fallbackKeywordMatch messageText
  { si := { present := kw, isLiteral := none, confidence := if kw then 3 / 10 else 0 }
    dep := { severityEstimate := some "LOW", confidence := 0 }
    tone := "unknown"
    requiresHumanReview := true }

/-- `RiskCalculator._analyze_contextual_risk`: no LLM → keyword fallback;
generate error / bad JSON / invalid structure → keyword fallback (the raised
exception is caught inside the method); valid response → calibrated result. -/
def analyzeContextualRisk (messageText : String) (ctx : Context)
    (outcome : LLMOutcome) (hasLLM : Bool) : ContextualResult :=
  if !hasLLM then fallbackKeywordAnalysis messageText
  else
    match outcome with
    | .genError =>
      { fallbackKeywordAnalysis messageText with requiresHumanReview := true }
    | .badJson => fallbackKeywordAnalysis messageText
    | .parsed a =>
      match a.suicidalIdeation, a.depressionIndicators, a.overallContext with
      | some si, some dep, some octx =>
        if validateSI si then
          let present := si.present.getD false
          { si := { present := present
                    isLiteral := si.isLiteral
                    confidence := calibrateSIConfidence (si.confidence.getD (1 / 2))
                      si.isLiteral present octx.tone ctx }
            dep := { severityEstimate := dep.severityEstimate
                     confidence := calibrateDepConfidence (dep.confidence.getD (1 / 2))
                       ctx.historyLen }
            tone := octx.tone
            requiresHumanReview := false }
        else fallbackKeywordAnalysis messageText
      | _, _, _ => fallbackKeywordAnalysis messageText

/-- The dict returned by `RiskCalculator._assess_suicidal_ideation` (the
free-text `reason` is omitted; `requiresHumanReview` models the
`requires_human_review` key, absent-as-false). -/
structure AssessedSI where
  present : Bool
  confidence : ℚ
  isLiteral : Option Bool
  requiresHumanReview : Bool
deriving Repr, DecidableEq

/-- The dict returned by `RiskCalculator._assess_depression_severity`. -/
structure AssessedDep where
  estimatedPhq9 : ℤ
  confidence : ℚ
  isEstimate : Bool
  requiresAssessment : Bool
deriving Repr, DecidableEq

/-- The dict returned by `RiskCalculator._assess_behavior_change`. -/
structure AssessedBeh where
  concern : String
  confidence : ℚ
deriving Repr, DecidableEq

/-- The safety-flag filter of `_assess_suicidal_ideation`'s fast path. -/
def crisisKeywordFlags (flags : List String) : List String :=
  flags.filter fun f =>
    containsSubstr f "crisis_keyword" || containsSubstr f "plan_indicator"

/-- `RiskCalculator._assess_suicidal_ideation`.  Precedence: checkpoint-1
safety flags (confidence 0.95), positive C-SSRS score (0.95), LLM contextual
analysis (calibrated), keyword fallback on failure (0.3, human review).  The
source's nested `if crisis_detected or safety_flags: if crisis_detected or
crisis_keywords:` returns only when both conditions hold and otherwise falls
through, which the conjunction below reproduces. -/
def assessSuicidalIdeation (messageText : String) (ctx : Context)
    (outcome : LLMOutcome) (hasLLM : Bool) : Option AssessedSI :=
  if (ctx.crisisDetected || !ctx.safetyFlags.isEmpty) &&
      (ctx.crisisDetected || !(crisisKeywordFlags ctx.safetyFlags).isEmpty) then
    some { present := true, confidence := 19 / 20, isLiteral := none,
           requiresHumanReview := false }
  else if (match ctx.cssrsScore with | some s => s ≠ 0 && decide (s > 0) | none => false) then
    some { present := true, confidence := 19 / 20, isLiteral := none,
           requiresHumanReview := false }
  else
    let llmAnalysis := analyzeContextualRisk messageText ctx outcome hasLLM
    if !llmAnalysis.si.present then none
    else
      some { present := true
             confidence := llmAnalysis.si.confidence
             isLiteral := llmAnalysis.si.isLiteral
             requiresHumanReview := llmAnalysis.requiresHumanReview }

/-- `RiskCalculator._assess_depression_severity`.  Precedence: latest validated
PHQ-9 assessment (confidence 0.9), LLM severity estimate (confidence × 0.7,
flagged as an estimate), concern-indicator heuristic (0.4,
`requires_assessment`). -/
def assessDepressionSeverity (messageText : String) (ctx : Context)
    (latestPHQ9 : Option ℤ) (outcome : LLMOutcome) (hasLLM : Bool) : Option AssessedDep :=
  match latestPHQ9 with
  | some score =>
    some { estimatedPhq9 := score, confidence := 9 / 10,
           isEstimate := false, requiresAssessment := false }
  | none =>
    let viaLLM : Option AssessedDep :=
      if hasLLM then
        let llmAnalysis := analyzeContextualRisk messageText ctx outcome hasLLM
        match llmAnalysis.dep.severityEstimate with
        | some s =>
          if s ≠ "" && s ≠ "LOW" then
            some { estimatedPhq9 := if s = "MEDIUM" then 10 else if s = "HIGH" then 15 else 5
                   confidence := llmAnalysis.dep.confidence * (7 / 10)
                   isEstimate := true, requiresAssessment := false }
          else none
        | none => none
      else none
    match viaLLM with
    | some d => some d
    | none =>
      if ctx.concernIndicators.contains "sleep_issues" &&
          ctx.concernIndicators.contains "low_energy" then
        some { estimatedPhq9 := 11, confidence := 2 / 5,
               isEstimate := true, requiresAssessment := true }
      else none

/-- `RiskCalculator._assess_behavior_change`: engagement-drop thresholds. -/
def assessBehaviorChange (ctx : Context) : Option AssessedBeh :=
  if ctx.engagementDrop > 3 / 5 then
    some { concern := "HIGH", confidence := 22 / 25 }
  else if ctx.engagementDrop > 3 / 10 then
    some { concern := "MEDIUM", confidence := 3 / 4 }
  else none

/-- `app.schemas.risk.SuicidalIdeationFactor` (pydantic strips the extra dict
keys; `confidence` is validated to [0, 1] at construction). -/
structure SuicidalIdeationFactor where
  present : Bool
  confidence : ℚ
deriving Repr, DecidableEq

/-- `app.schemas.risk.DepressionSeverityFactor`.  The schema's
`estimated_phq9` is `Optional[int]`, but every dict built by the assessors
sets it, so it is an `ℤ` here. -/
structure DepressionSeverityFactor where
  estimatedPhq9 : ℤ
  confidence : ℚ
deriving Repr, DecidableEq

/-- `app.schemas.risk.BehaviorChangeFactor`. -/
structure BehaviorChangeFactor where
  concern : String
  confidence : ℚ
deriving Repr, DecidableEq

/-- `app.schemas.risk.RiskFactors`. -/
structure RiskFactors where
  suicidalIdeation : Option SuicidalIdeationFactor
  depressionSeverity : Option DepressionSeverityFactor
  behaviorChange : Option BehaviorChangeFactor
deriving Repr, DecidableEq

/-- Pydantic's `Field(ge=0.0, le=1.0)` bound on a confidence. -/
def confInRange (c : ℚ) : Bool :=
  decide (0 ≤ c) && decide (c ≤ 1)

/-- Constructing `RiskFactors` from the assessor dicts: pydantic validates
every present factor's confidence and raises `ValidationError` (modelled as
`Except.error`) when one is out of range. -/
def toRiskFactors (si : Option AssessedSI) (dep : Option AssessedDep)
    (beh : Option AssessedBeh) : Except Unit RiskFactors :=
  if (si.all fun f => confInRange f.confidence) &&
      (dep.all fun f => confInRange f.confidence) &&
      (beh.all fun f => confInRange f.confidence) then
    .ok { suicidalIdeation := si.map fun f => ⟨f.present, f.confidence⟩
          depressionSeverity := dep.map fun f => ⟨f.estimatedPhq9, f.confidence⟩
          behaviorChange := beh.map fun f => ⟨f.concern, f.confidence⟩ }
  else .error ()

/-- The view of the temporal-analysis dict read by
`RiskCalculator._calculate_overall_risk`: the `use_snapshot_only` and
`velocity_confidence` keys are read with defaults (`analyze_trajectory` never
writes either, so the defaults `false` / `0.8` always apply in the pipeline),
plus the four pattern flags it consults. -/
structure TemporalInput where
  useSnapshotOnly : Bool
  rapidDeterioration : Bool
  preDecisionCalm : Bool
  chronicElevated : Bool
  disengagement : Bool
  velocityConfidence : ℚ
deriving Repr, DecidableEq

/-- How `calculate_risk` passes `analyze_trajectory`'s result dict into
`_calculate_overall_risk`. -/
def toTemporalInput (t : TrajectoryResult) : TemporalInput :=
  { useSnapshotOnly := false
    rapidDeterioration := t.patternDetails.rapidDeterioration
    preDecisionCalm := t.patternDetails.preDecisionCalm
    chronicElevated := t.patternDetails.chronicElevated
    disengagement := t.patternDetails.disengagement
    velocityConfidence := 4 / 5 }

/-- The suicidal-ideation entry of the `risk_scores` list: code 4 when the
factor is present. -/
def siScores : Option SuicidalIdeationFactor → List ℕ
  | some si => if si.present then [4] else []
  | none => []

/-- The depression entry of the `risk_scores` list: PHQ-9 bands ≥20 → 4,
≥15 → 3, ≥10 → 2. -/
def depScores : Option DepressionSeverityFactor → List ℕ
  | some d =>
    if 20 ≤ d.estimatedPhq9 then [4]
    else if 15 ≤ d.estimatedPhq9 then [3]
    else if 10 ≤ d.estimatedPhq9 then [2]
    else []
  | none => []

/-- The behaviour-change entry of the `risk_scores` list: HIGH → 3,
MEDIUM → 2. -/
def behScores : Option BehaviorChangeFactor → List ℕ
  | some b => if b.concern = "HIGH" then [3] else if b.concern = "MEDIUM" then [2] else []
  | none => []

/-- The temporal-pattern entries of the `risk_scores` list (skipped under
`use_snapshot_only`). -/
def temporalScores (tin : TemporalInput) : List ℕ :=
  if !tin.useSnapshotOnly then
    (if tin.rapidDeterioration then [3] else []) ++
    (if tin.preDecisionCalm then [4] else []) ++
    (if tin.chronicElevated then [2] else []) ++
    (if tin.disengagement then [2] else [])
  else []

/-- The `risk_scores` list built by `_calculate_overall_risk`: suicidal
ideation contributes 4, depression contributes by PHQ-9 band, behaviour change
by concern level, and (absent `use_snapshot_only`) each fired temporal pattern
its own code. -/
def riskScores (rf : RiskFactors) (tin : TemporalInput) : List ℕ :=
  siScores rf.suicidalIdeation ++ depScores rf.depressionSeverity ++
    behScores rf.behaviorChange ++ temporalScores tin

/-- The suicidal-ideation entry of the `confidence_scores` list. -/
def siConfs : Option SuicidalIdeationFactor → List ℚ
  | some si => if si.present then [si.confidence] else []
  | none => []

/-- The depression entry of the `confidence_scores` list: appended whenever
the factor is present, even when it contributes no code. -/
def depConfs : Option DepressionSeverityFactor → List ℚ
  | some d => [d.confidence]
  | none => []

/-- The behaviour-change entry of the `confidence_scores` list: appended
whenever the factor is present. -/
def behConfs : Option BehaviorChangeFactor → List ℚ
  | some b => [b.confidence]
  | none => []

/-- The temporal-pattern entries of the `confidence_scores` list: the
`velocity_confidence` default for rapid deterioration, then the fixed 0.95 /
0.7 / 0.6 pattern confidences. -/
def temporalConfs (tin : TemporalInput) : List ℚ :=
  if !tin.useSnapshotOnly then
    (if tin.rapidDeterioration then [tin.velocityConfidence] else []) ++
    (if tin.preDecisionCalm then [(19 : ℚ) / 20] else []) ++
    (if tin.chronicElevated then [(7 : ℚ) / 10] else []) ++
    (if tin.disengagement then [(3 : ℚ) / 5] else [])
  else []

/-- The `confidence_scores` list built by `_calculate_overall_risk`. -/
def confidenceScores (rf : RiskFactors) (tin : TemporalInput) : List ℚ :=
  siConfs rf.suicidalIdeation ++ depConfs rf.depressionSeverity ++
    behConfs rf.behaviorChange ++ temporalConfs tin

/-- `RiskCalculator._calculate_overall_risk`: `(LOW, 0.5)` when no risk code
was contributed, otherwise the level of the maximum code with the arithmetic
mean of the contributed confidences. -/
def calculateOverallRisk (rf : RiskFactors) (tin : TemporalInput) : RiskLevel × ℚ :=
  let scores := riskScores rf tin
  let confs := confidenceScores rf tin
  if scores.isEmpty then (RiskLevel.LOW, 1 / 2)
  else
    let maxRisk := scores.foldr max 0
    let avgConfidence := if confs.isEmpty then 1 / 2 else confs.sum / confs.length
    (if 4 ≤ maxRisk then RiskLevel.CRISIS
     else if 3 ≤ maxRisk then RiskLevel.HIGH
     else if 2 ≤ maxRisk then RiskLevel.MEDIUM
     else RiskLevel.LOW,
     avgConfidence)

/-- `RiskCalculator._determine_action`. -/
def determineAction (overallRisk : RiskLevel) (confidence : ℚ) : String :=
  if overallRisk = RiskLevel.CRISIS then "immediate_crisis_protocol"
  else if overallRisk = RiskLevel.HIGH && decide (confidence > 9 / 10) then "immediate_alert"
  else if overallRisk = RiskLevel.HIGH && decide (confidence < 9 / 10) then "human_review_queue"
  else if overallRisk = RiskLevel.MEDIUM then "schedule_counselor_review_within_48h"
  else "continue_monitoring"

/-- `app.schemas.risk.AlertRecommendation` (constant `reasoning` strings
kept; the free-text field plays no role in any property). -/
structure AlertRecommendation where
  shouldAlert : Bool
  alertType : String
  confidence : ℚ
  reasoning : String
  priorityScore : ℚ
deriving Repr, DecidableEq

/-- `RiskCalculator._generate_alert_recommendation`: the decision table over
`(overall_risk, confidence)`, with the fall-through priority score
`risk_value * confidence * 25`. -/
def generateAlertRecommendation (overallRisk : RiskLevel) (confidence : ℚ) :
    AlertRecommendation :=
  if overallRisk = RiskLevel.CRISIS then
    { shouldAlert := true, alertType := "IMMEDIATE", confidence := confidence,
      reasoning := "Crisis-level risk detected", priorityScore := 100 }
  else if overallRisk = RiskLevel.HIGH && decide (confidence > 9 / 10) then
    { shouldAlert := true, alertType := "IMMEDIATE", confidence := confidence,
      reasoning := "High risk with high confidence", priorityScore := 90 }
  else if overallRisk = RiskLevel.HIGH && decide (confidence < 7 / 10) then
    { shouldAlert := true, alertType := "URGENT", confidence := confidence,
      reasoning := "High risk but low confidence - requires human review",
      priorityScore := 70 }
  else if overallRisk = RiskLevel.MEDIUM then
    { shouldAlert := true, alertType := "ROUTINE", confidence := confidence,
      reasoning := "Medium risk - routine review recommended", priorityScore := 50 }
  else
    { shouldAlert := false, alertType := "NONE", confidence := confidence,
      reasoning := "",
      priorityScore := (overallRisk.code : ℚ) * confidence * 25 }

/-- The collaborator-visible state `calculate_risk` reads: the persisted risk
history (for the temporal analyzer), the latest validated PHQ-9 assessment,
the outcomes of the two contextual-analysis LLM calls (one from the
suicidal-ideation assessor, one from the depression assessor) and whether an
LLM client was configured at all. -/
structure CalcWorld where
  history : List TrajEntry
  latestPHQ9 : Option ℤ
  siCall : LLMOutcome
  depCall : LLMOutcome
  hasLLM : Bool
deriving Repr, DecidableEq

/-- The result dict of `RiskCalculator.calculate_risk`. -/
structure RiskResult where
  overallRisk : RiskLevel
  confidence : ℚ
  riskFactors : RiskFactors
  recommendedAction : String
  temporalPatterns : List String
  alertRecommendation : AlertRecommendation
deriving Repr, DecidableEq

/-- `RiskCalculator.calculate_risk`: temporal analysis, the three factor
assessments, schema validation (a pydantic `ValidationError` propagates as
`Except.error`), overall-risk fusion, recommended action and alert
recommendation.  The `concern_indicators` argument is passed through to
`_calculate_overall_risk`, which never reads it.  The profile-level
`Field(ge=0.0, le=1.0)` check never fires on validated factors (theorem
`calculateOverallRisk_confidence_in_range` below), so it adds no branch. -/
def calculateRisk (messageText : String) (ctx : Context) (w : CalcWorld)
    (_concernIndicators : List String) : Except Unit RiskResult :=
  let traj := analyzeTrajectory w.history
  let si := assessSuicidalIdeation messageText ctx w.siCall w.hasLLM
  let dep := assessDepressionSeverity messageText ctx w.latestPHQ9 w.depCall w.hasLLM
  let beh := assessBehaviorChange ctx
  match toRiskFactors si dep beh with
  | .error e => .error e
  | .ok rf =>
    let overallConf := calculateOverallRisk rf (toTemporalInput traj)
    .ok { overallRisk := overallConf.1
          confidence := overallConf.2
          riskFactors := rf
          recommendedAction := determineAction overallConf.1 overallConf.2
          temporalPatterns := traj.patterns
          alertRecommendation := generateAlertRecommendation overallConf.1 overallConf.2 }

/-! ## SequentialProcessor
(src/backend/app/services/analysis/sequential_processor.py) -/

/-- The fixed crisis-protocol message of
`SequentialProcessor._get_crisis_protocol_message`. -/
def crisisProtocolMessage : String :=
  "I'm concerned about your safety. Please reach out for immediate help:\n\nCrisis Text Line: Text HOME to 741741\nNational Suicide Prevention Lifeline: 988\nCampus Counseling: [CAMPUS_NUMBER]\n\nI'm here to support you, and professional help is available right now."

/-- The counseling note appended by checkpoint 5 on the medium / high-risk
branch. -/
def counselingNote : String :=
  "\n\nI'm here to support you. Would you like me to connect you with a counselor?"

/-- The result dict of `SequentialProcessor._checkpoint_5_response_gating`. -/
structure GatingResult where
  finalResponse : Option String
  responseSent : Bool
  crisisTriggered : Bool
  gatingDecision : String
deriving Repr, DecidableEq

/-- `SequentialProcessor._checkpoint_5_response_gating`: `overall_risk` and
`confidence` are read from checkpoint 4's risk-profile dict (string level,
defaults `"LOW"` / `0.0`). -/
def checkpoint5Gating (llmResponse : Option String) (overallRisk : String)
    (confidence : ℚ) : GatingResult :=
  if overallRisk = "CRISIS" || (overallRisk = "HIGH" && decide (confidence > 9 / 10)) then
    { finalResponse := some crisisProtocolMessage, responseSent := true,
      crisisTriggered := true, gatingDecision := overallRisk }
  else if overallRisk = "MEDIUM" || (overallRisk = "HIGH" && decide (confidence < 9 / 10)) then
    { finalResponse := some (llmResponse.getD "" ++ counselingNote), responseSent := true,
      crisisTriggered := false, gatingDecision := overallRisk }
  else
    { finalResponse := llmResponse, responseSent := true,
      crisisTriggered := false, gatingDecision := overallRisk }

/-- The LLM concern-indicator analysis of
`SequentialProcessor._analyze_concern_indicators`, when its JSON parses. -/
structure ConcernFlags where
  languageShift : Bool
  hopelessness : Bool
  engagementDrop : Bool
  suddenMoodChange : Bool
deriving Repr, DecidableEq

/-- The database / collaborator state visible to one `process_message` run. -/
structure World where
  conversationHistoryLen : ℕ
  hasBaseline : Bool
  baselineTypicalSentiment : Bool
  history : List TrajEntry
  latestPHQ9 : Option ℤ
  siCall : LLMOutcome
  depCall : LLMOutcome
  hasLLM : Bool
  llmGen : Option String
  emojiGenuineDistress : Bool
  concernCall : Option ConcernFlags
deriving Repr, DecidableEq

/-- The `CalcWorld` slice of a `World`. -/
def World.calc (w : World) : CalcWorld :=
  { history := w.history, latestPHQ9 := w.latestPHQ9,
    siCall := w.siCall, depCall := w.depCall, hasLLM := w.hasLLM }

/-- `SequentialProcessor._checkpoint_2_context_enrichment`, restricted to the
context fields the risk calculator reads.  `_get_behavioral_metadata` returns
`{}` (so the engagement drop defaults to 0), `get_current_risk_profile`'s dict
never carries a `cssrs_score` key, and the enriched context has no
`concern_indicators` key. -/
def enrichContext (w : World) (screen : ScreenResult) : Context :=
  { safetyFlags := screen.flags
    crisisDetected := screen.crisisDetected
    historyLen := w.conversationHistoryLen
    hasBaseline := w.hasBaseline
    baselineTypicalSentiment := w.baselineTypicalSentiment
    cssrsScore := none
    engagementDrop := 0
    concernIndicators := [] }

/-- The hopelessness keywords of
`SequentialProcessor._fallback_concern_indicators`. -/
def HOPELESSNESS_KEYWORDS : List String :=
  ["hopeless", "worthless", "no point", "no future", "nothing matters",
   "can't go on", "give up", "no reason to live"]

/-- `SequentialProcessor._fallback_concern_indicators`. -/
def fallbackConcernIndicators (messageText : String) (ctx : Context) : List String :=
  let messageLower : String := ⟨pyLower messageText.toList⟩
  (if HOPELESSNESS_KEYWORDS.any fun kw => containsSubstr messageLower kw then
    ["hopelessness_themes"]
  else []) ++
  (if ctx.engagementDrop > 1 / 2 then ["significant_engagement_drop"] else [])

/-- The indicator list built from a parsed
`_analyze_concern_indicators` response. -/
def concernFlagsToIndicators (f : ConcernFlags) : List String :=
  (if f.languageShift then ["sudden_language_shift"] else []) ++
  (if f.hopelessness then ["hopelessness_themes"] else []) ++
  (if f.engagementDrop then ["significant_engagement_drop"] else []) ++
  (if f.suddenMoodChange then ["sudden_mood_change"] else [])

/-- `SequentialProcessor._extract_concern_indicators`: emoji signal, then the
LLM analysis (`_analyze_concern_indicators` swallows its own errors and
returns `[]`), or the keyword heuristics when no LLM client exists. -/
def extractConcernIndicators (w : World) (messageText : String) (ctx : Context) :
    List String :=
  (if w.emojiGenuineDistress then ["genuine_distress_emoji"] else []) ++
  (if w.hasLLM then
    match w.concernCall with
    | some f => concernFlagsToIndicators f
    | none => []
  else fallbackConcernIndicators messageText ctx)

/-- One entry of the checkpoint audit trail (name and pass/fail; payloads are
carried by the surrounding analysis record). -/
structure Checkpoint where
  name : String
  passed : Bool
deriving Repr, DecidableEq

/-- The fields of `app.schemas.message.MessageAnalysis` the pipeline
properties speak about. -/
structure MessageAnalysis where
  checkpoints : List Checkpoint
  concernIndicators : List String
  safetyFlags : List String
  riskProfile : Option RiskResult
  responseGenerated : Bool
  responseText : Option String
  crisisProtocolTriggered : Bool
deriving Repr, DecidableEq

/-- `SequentialProcessor.process_message`.  Checkpoint 1 screens the text; on
crisis the pipeline still enriches context and calculates risk (failures
there are caught, hence `.toOption`) but skips reply generation and returns
`_create_crisis_response`.  Otherwise checkpoints 2–5 run in order; a
validation error escaping `calculate_risk` in checkpoint 4 propagates. -/
def processMessage (w : World) (messageText : String) : Except Unit MessageAnalysis :=
  let screen := screenImmediate messageText
  let cp1 : Checkpoint := ⟨"IMMEDIATE_SAFETY_SCREEN", !screen.crisisDetected⟩
  if screen.crisisDetected then
    let ctx := enrichContext w screen
    let cp2 : Checkpoint := ⟨"CONTEXT_ENRICHMENT", true⟩
    let riskProfile := (calculateRisk messageText ctx w.calc ["crisis_detected"]).toOption
    .ok { checkpoints := [cp1, cp2]
          concernIndicators := []
          safetyFlags := []
          riskProfile := riskProfile
          responseGenerated := true
          responseText := some crisisProtocolMessage
          crisisProtocolTriggered := true }
  else
    let ctx := enrichContext w screen
    let cp2 : Checkpoint := ⟨"CONTEXT_ENRICHMENT", true⟩
    let llmResponse := w.llmGen.map filterResponse
    let cp3 : Checkpoint := ⟨"LLM_GENERATION", w.llmGen.isSome⟩
    let indicators := extractConcernIndicators w messageText ctx
    match calculateRisk messageText ctx w.calc indicators with
    | .error e => .error e
    | .ok risk =>
      let cp4 : Checkpoint := ⟨"DEEP_ANALYSIS", true⟩
      let gate := checkpoint5Gating llmResponse risk.overallRisk.str risk.confidence
      let cp5 : Checkpoint := ⟨"RESPONSE_GATING", true⟩
      .ok { checkpoints := [cp1, cp2, cp3, cp4, cp5]
            concernIndicators := indicators
            safetyFlags := screen.flags
            riskProfile := some risk
            responseGenerated := gate.responseSent
            responseText := gate.finalResponse
            crisisProtocolTriggered := gate.crisisTriggered }

/-! ## Properties -/

/-- C8. For every call to `AdaptiveSensitivityService.adjust_thresholds` and
every threshold in {PHQ9, GAD7, confidence}, the ratio of the threshold's
value after the call to its value before lies within [0.90, 1.10]; this holds
in particular when both the false-positive rule (×1.10) and the
false-negative rule (×0.95) fire in one call (combined factor 1.045). -/
theorem adjustThresholds_ratio_bounded (fp tp fn : ℕ) (th : Thresholds)
    (h1 : 0 < th.phq9) (h2 : 0 < th.gad7) (h3 : 0 < th.confidence) :
    (9 / 10 ≤ (adjustThresholds fp tp fn th).phq9 / th.phq9 ∧
      (adjustThresholds fp tp fn th).phq9 / th.phq9 ≤ 11 / 10) ∧
    (9 / 10 ≤ (adjustThresholds fp tp fn th).gad7 / th.gad7 ∧
      (adjustThresholds fp tp fn th).gad7 / th.gad7 ≤ 11 / 10) ∧
    (9 / 10 ≤ (adjustThresholds fp tp fn th).confidence / th.confidence ∧
      (adjustThresholds fp tp fn th).confidence / th.confidence ≤ 11 / 10) := by
  unfold adjustThresholds
  split <;> split <;> dsimp only <;>
    refine ⟨⟨?_, ?_⟩, ⟨?_, ?_⟩, ⟨?_, ?_⟩⟩ <;>
    first
      | (rw [le_div_iff₀ h1]; linarith)
      | (rw [div_le_iff₀ h1]; linarith)
      | (rw [le_div_iff₀ h2]; linarith)
      | (rw [div_le_iff₀ h2]; linarith)
      | (rw [le_div_iff₀ h3]; linarith)
      | (rw [div_le_iff₀ h3]; linarith)

/-- C8 witness: with 1 false positive, 0 true positives and 1 false negative
both rules fire on unit thresholds, and every ratio stays within [0.9, 1.1]. -/
theorem adjustThresholds_ratio_bounded_witness :
    (9 / 10 ≤ (adjustThresholds 1 0 1 ⟨1, 1, 1⟩).phq9 / (1 : ℚ) ∧
      (adjustThresholds 1 0 1 ⟨1, 1, 1⟩).phq9 / (1 : ℚ) ≤ 11 / 10) ∧
    (9 / 10 ≤ (adjustThresholds 1 0 1 ⟨1, 1, 1⟩).gad7 / (1 : ℚ) ∧
      (adjustThresholds 1 0 1 ⟨1, 1, 1⟩).gad7 / (1 : ℚ) ≤ 11 / 10) ∧
    (9 / 10 ≤ (adjustThresholds 1 0 1 ⟨1, 1, 1⟩).confidence / (1 : ℚ) ∧
      (adjustThresholds 1 0 1 ⟨1, 1, 1⟩).confidence / (1 : ℚ) ≤ 11 / 10) :=
  adjustThresholds_ratio_bounded 1 0 1 ⟨1, 1, 1⟩ (by norm_num) (by norm_num) (by norm_num)

/-- C4 counterexample: a HIGH-risk profile with confidence exactly 0.9 falls
through both gating branches of checkpoint 5 — the reply is sent unmodified,
with no counseling-offer suffix, although the claim demands the suffix for
every confidence ≤ 0.9. -/
theorem checkpoint5_high_at_0_9_unmodified :
    (checkpoint5Gating (some "Hello") "HIGH" (9 / 10)).finalResponse = some "Hello" ∧
    (checkpoint5Gating (some "Hello") "HIGH" (9 / 10)).crisisTriggered = false ∧
    some "Hello" ≠ some ("Hello" ++ counselingNote) := by
  have h1 : ¬((9 : ℚ) / 10 > 9 / 10) := lt_irrefl _
  have h2 : ¬((9 : ℚ) / 10 < 9 / 10) := lt_irrefl _
  refine ⟨?_, ?_, by decide⟩ <;> simp [checkpoint5Gating, h1, h2]

/-- C4 (amended). In checkpoint 5, a HIGH-risk profile with confidence
strictly below 0.9 gets the generated reply with the counseling-offer suffix
appended and `crisis_triggered` stays false; at confidence exactly 0.9 the
reply is sent unmodified; the crisis-protocol replacement fires exactly for
CRISIS, or HIGH with confidence strictly above 0.9. -/
theorem checkpoint5_gating_spec (reply : String) (overallRisk : String) (c : ℚ) :
    (overallRisk = "HIGH" → c < 9 / 10 →
      (checkpoint5Gating (some reply) overallRisk c).finalResponse =
        some (reply ++ counselingNote) ∧
      (checkpoint5Gating (some reply) overallRisk c).crisisTriggered = false) ∧
    (overallRisk = "HIGH" → c = 9 / 10 →
      (checkpoint5Gating (some reply) overallRisk c).finalResponse = some reply ∧
      (checkpoint5Gating (some reply) overallRisk c).crisisTriggered = false) ∧
    ((checkpoint5Gating (some reply) overallRisk c).crisisTriggered = true ↔
      overallRisk = "CRISIS" ∨ (overallRisk = "HIGH" ∧ c > 9 / 10)) := by
  refine ⟨?_, ?_, ?_⟩
  · intro hr hc
    have h1 : ¬(c > 9 / 10) := by linarith
    have h2 : ¬(overallRisk = "CRISIS") := by rw [hr]; decide
    simp [checkpoint5Gating, hr, h1, h2, hc]
  · intro hr hc
    subst hc
    have h1 : ¬((9 : ℚ) / 10 > 9 / 10) := lt_irrefl _
    have h2 : ¬((9 : ℚ) / 10 < 9 / 10) := lt_irrefl _
    have h3 : ¬(overallRisk = "CRISIS") := by rw [hr]; decide
    have h4 : ¬(overallRisk = "MEDIUM") := by rw [hr]; decide
    simp [checkpoint5Gating, hr, h1, h2, h3, h4]
  · by_cases hc : overallRisk = "CRISIS"
    · simp [checkpoint5Gating, hc]
    · by_cases hh : overallRisk = "HIGH"
      · by_cases hgt : c > 9 / 10
        · simp [checkpoint5Gating, hc, hh, hgt]
        · by_cases hlt : c < 9 / 10 <;>
            simp [checkpoint5Gating, hc, hh, hgt, hlt]
      · by_cases hm : overallRisk = "MEDIUM" <;>
          simp [checkpoint5Gating, hc, hh, hm]

/-- C4 witness: HIGH risk at confidence 0.5 appends the counseling note and
does not trigger the crisis protocol. -/
theorem checkpoint5_gating_spec_witness :
    (checkpoint5Gating (some "Hi") "HIGH" (1 / 2)).finalResponse =
      some ("Hi" ++ counselingNote) ∧
    (checkpoint5Gating (some "Hi") "HIGH" (1 / 2)).crisisTriggered = false :=
  (checkpoint5_gating_spec "Hi" "HIGH" (1 / 2)).1 rfl (by norm_num)

/-- C10 counterexample: at the boundary confidence 0.9 a HIGH-risk profile
produces no alert (as the claim says), but checkpoint 5 does NOT append the
counseling note — the reply goes out unmodified — contradicting the claim's
assertion that every profile in the 0.7–0.9 gap makes checkpoint 5 append the
note. -/
theorem alertRecommendation_gap_at_0_9 :
    (generateAlertRecommendation RiskLevel.HIGH (9 / 10)).shouldAlert = false ∧
    (generateAlertRecommendation RiskLevel.HIGH (9 / 10)).alertType = "NONE" ∧
    (checkpoint5Gating (some "I hear you.") "HIGH" (9 / 10)).finalResponse =
      some "I hear you." ∧
    some "I hear you." ≠ some ("I hear you." ++ counselingNote) := by
  have h1 : ¬((9 : ℚ) / 10 > 9 / 10) := lt_irrefl _
  have h2 : ¬((9 : ℚ) / 10 < 9 / 10) := lt_irrefl _
  have h3 : ¬((9 : ℚ) / 10 < 7 / 10) := by norm_num
  refine ⟨?_, ?_, ?_, by decide⟩ <;>
    simp [generateAlertRecommendation, checkpoint5Gating, h1, h2, h3]

/-- C10 (amended). For every HIGH-risk profile with confidence c in
[0.7, 0.9], `_generate_alert_recommendation` returns no alert
(`should_alert = false`, `alert_type = "NONE"`) with priority score
3 × c × 25; checkpoint 5 appends the counseling note only for c < 0.9, and at
exactly c = 0.9 sends the reply unmodified — so at the gap's upper endpoint a
HIGH-risk message produces neither an alert nor a counseling note. -/
theorem alertRecommendation_gap_spec (c : ℚ) (reply : String)
    (h1 : 7 / 10 ≤ c) (h2 : c ≤ 9 / 10) :
    (generateAlertRecommendation RiskLevel.HIGH c).shouldAlert = false ∧
    (generateAlertRecommendation RiskLevel.HIGH c).alertType = "NONE" ∧
    (generateAlertRecommendation RiskLevel.HIGH c).priorityScore = 3 * c * 25 ∧
    (c < 9 / 10 →
      (checkpoint5Gating (some reply) "HIGH" c).finalResponse =
        some (reply ++ counselingNote)) ∧
    (c = 9 / 10 →
      (checkpoint5Gating (some reply) "HIGH" c).finalResponse = some reply) := by
  have hgt : ¬(c > 9 / 10) := not_lt.mpr h2
  have hlt : ¬(c < 7 / 10) := not_lt.mpr h1
  refine ⟨?_, ?_, ?_, ?_, ?_⟩
  · simp [generateAlertRecommendation, hgt, hlt]
  · simp [generateAlertRecommendation, hgt, hlt]
  · simp [generateAlertRecommendation, hgt, hlt, RiskLevel.code]
  · intro hc
    simp [checkpoint5Gating, hgt, hc]
  · intro hc
    subst hc
    have h3 : ¬((9 : ℚ) / 10 < 9 / 10) := lt_irrefl _
    simp [checkpoint5Gating, hgt, h3]

/-- C10 witness: at confidence 0.8 a HIGH-risk profile yields no alert with
priority score 60, while checkpoint 5 appends the counseling note. -/
theorem alertRecommendation_gap_spec_witness :
    (generateAlertRecommendation RiskLevel.HIGH (4 / 5)).shouldAlert = false ∧
    (generateAlertRecommendation RiskLevel.HIGH (4 / 5)).alertType = "NONE" ∧
    (generateAlertRecommendation RiskLevel.HIGH (4 / 5)).priorityScore = 3 * (4 / 5) * 25 ∧
    (checkpoint5Gating (some "ok") "HIGH" (4 / 5)).finalResponse =
      some ("ok" ++ counselingNote) :=
  ⟨(alertRecommendation_gap_spec (4 / 5) "ok" (by norm_num) (by norm_num)).1,
   (alertRecommendation_gap_spec (4 / 5) "ok" (by norm_num) (by norm_num)).2.1,
   (alertRecommendation_gap_spec (4 / 5) "ok" (by norm_num) (by norm_num)).2.2.1,
   (alertRecommendation_gap_spec (4 / 5) "ok" (by norm_num) (by norm_num)).2.2.2.1
     (by norm_num)⟩

/-- Fuel-correctness of `excess53Aux`: with enough fuel, `v` shifted right by
the computed excess still has its leading bit at position ≥ 52. -/
theorem excess53Aux_pow_le : ∀ fuel v : ℕ, v ≤ fuel → 2 ^ 53 ≤ v →
    2 ^ (52 + excess53Aux fuel v) ≤ v := by
  intro fuel
  induction fuel with
  | zero =>
    intro v hv h
    have hv0 : v = 0 := Nat.le_zero.mp hv
    subst hv0
    exact absurd h (by norm_num)
  | succ fuel ih =>
    intro v hv h
    rw [excess53Aux, if_pos h]
    by_cases h2 : 2 ^ 53 ≤ v / 2
    · have ihh := ih (v / 2) (by omega) h2
      have e : 2 ^ (52 + (excess53Aux fuel (v / 2) + 1)) =
          2 * 2 ^ (52 + excess53Aux fuel (v / 2)) := by
        rw [← Nat.add_assoc, pow_succ]
        ring
      rw [e]
      omega
    · have hz : excess53Aux fuel (v / 2) = 0 := by
        cases fuel with
        | zero => rfl
        | succ f => rw [excess53Aux, if_neg h2]
      rw [hz]
      simpa using h
/-- The excess of a `v ≥ 2 ^ 53` really counts its bits beyond 53. -/
theorem excess53_pow_le {v : ℕ} (h : 2 ^ 53 ≤ v) : 2 ^ (52 + excess53 v) ≤ v :=
  excess53Aux_pow_le v v le_rfl h

/-- The rounded significand exceeds `v` by at most one unit in the last place,
which is at most `v / 2 ^ 52`. -/
theorem roundSig53_le (v : ℕ) : roundSig53 v ≤ v + v / 2 ^ 52 := by
  rw [roundSig53]
  split
  · exact Nat.le_add_right v _
  · rename_i h
    push_neg at h
    dsimp only
    have hpow := excess53_pow_le h
    have h2k : 2 ^ excess53 v ≤ v / 2 ^ 52 := by
      rw [Nat.le_div_iff_mul_le (by positivity)]
      calc 2 ^ excess53 v * 2 ^ 52 = 2 ^ (52 + excess53 v) := by
            rw [← pow_add, Nat.add_comm]
        _ ≤ v := hpow
    have hq : v / 2 ^ excess53 v * 2 ^ excess53 v ≤ v := Nat.div_mul_le_self v _
    split
    · calc (v / 2 ^ excess53 v + 1) * 2 ^ excess53 v =
          v / 2 ^ excess53 v * 2 ^ excess53 v + 2 ^ excess53 v := by ring
        _ ≤ v + v / 2 ^ 52 := Nat.add_le_add hq h2k
    · exact le_trans hq (Nat.le_add_right _ _)

/-- The rounded significand loses at most half of `v`. -/
theorem le_roundSig53 {v : ℕ} (h : 2 ^ 53 ≤ v) : v - v / 2 ≤ roundSig53 v := by
  rw [roundSig53, if_neg (Nat.not_lt.mpr h)]
  dsimp only
  have hpow := excess53_pow_le h
  have h2k : 2 ^ excess53 v ≤ v / 2 ^ 52 := by
    rw [Nat.le_div_iff_mul_le (by positivity)]
    calc 2 ^ excess53 v * 2 ^ 52 = 2 ^ (52 + excess53 v) := by
          rw [← pow_add, Nat.add_comm]
      _ ≤ v := hpow
  have hdivle : v / 2 ^ 52 ≤ v / 2 :=
    Nat.div_le_div_left (by norm_num) (by norm_num)
  have hmod : v % 2 ^ excess53 v < 2 ^ excess53 v := Nat.mod_lt _ (by positivity)
  have hqe : v / 2 ^ excess53 v * 2 ^ excess53 v = v - v % 2 ^ excess53 v := by
    rw [Nat.mul_comm]
    exact Nat.eq_sub_of_add_eq (Nat.div_add_mod v _)
  have hbase : v - v / 2 ≤ v / 2 ^ excess53 v * 2 ^ excess53 v := by
    rw [hqe]
    exact Nat.sub_le_sub_left (le_trans (le_trans hmod.le h2k) hdivle) v
  split
  · exact le_trans hbase (Nat.mul_le_mul_right _ (Nat.le_succ _))
  · exact hbase

/-- Python's `int(n * 0.7)` is below `n` for every positive `n`. -/
theorem pythonSplit_lt {n : ℕ} (hn : 1 ≤ n) : pythonSplit n < n := by
  rw [pythonSplit, Nat.div_lt_iff_lt_mul (by positivity)]
  have h1 := roundSig53_le (n * DOUBLE_07_NUM)
  have h2 : n * DOUBLE_07_NUM / 2 ^ 52 ≤ n := by
    have hm : n * DOUBLE_07_NUM ≤ n * 2 ^ 52 :=
      Nat.mul_le_mul_left _ (by norm_num [DOUBLE_07_NUM])
    calc n * DOUBLE_07_NUM / 2 ^ 52 ≤ n * 2 ^ 52 / 2 ^ 52 := Nat.div_le_div_right hm
      _ = n := Nat.mul_div_cancel _ (by positivity)
  have h3 : n * DOUBLE_07_NUM + n < n * 2 ^ 52 := by
    have e52 : (2 : ℕ) ^ 52 = 4503599627370496 := by norm_num
    rw [e52]
    simp only [DOUBLE_07_NUM]
    omega
  omega

/-- Python's `int(n * 0.7)` is at least 1 once `n ≥ 2`. -/
theorem pythonSplit_pos {n : ℕ} (hn : 2 ≤ n) : 1 ≤ pythonSplit n := by
  rw [pythonSplit, Nat.one_le_div_iff (by positivity)]
  have e52 : (2 : ℕ) ^ 52 = 4503599627370496 := by norm_num
  have e53 : (2 : ℕ) ^ 53 = 9007199254740992 := by norm_num
  have hd : 2 * DOUBLE_07_NUM ≤ n * DOUBLE_07_NUM :=
    Nat.mul_le_mul_right _ hn
  by_cases h : 2 ^ 53 ≤ n * DOUBLE_07_NUM
  · have h1 := le_roundSig53 h
    rw [e52]
    rw [e53] at h
    simp only [DOUBLE_07_NUM] at h1 hd h ⊢
    omega
  · rw [roundSig53, if_pos (Nat.lt_of_not_le h)]
    rw [e52]
    simp only [DOUBLE_07_NUM] at hd ⊢
    omega

/-- The pre-decision-calm condition exactly as the claim words it (no length
guard): mean of the first 70% of the series ≥ 3.0, mean of the last 30%
< 2.0, and the drop exceeds 1.5.  Stated for comparison with
`detectPreDecisionCalm`. -/
def preDecisionCalmSpec (history : List TrajEntry) : Bool :=
  let scores := history.map (·.riskScore)
  let splitPoint := pythonSplit scores.length
  let firstMean := meanQ (scores.take splitPoint)
  let lastMean := meanQ (scores.drop splitPoint)
  decide (firstMean ≥ 3 ∧ lastMean < 2 ∧ firstMean - lastMean > 3 / 2)

/-- C6 counterexample: the 4-point series [4, 4, 1, 1] has at least 3 data
points and satisfies the claimed means condition (first 70% mean 4 ≥ 3, last
30% mean 1 < 2, drop 3 > 1.5), yet `_detect_pre_decision_calm` returns false
because it requires at least 5 points, not 3. -/
theorem preDecisionCalm_four_points :
    detectPreDecisionCalm
      [⟨0, 4, 1⟩, ⟨1, 4, 1⟩, ⟨2, 1, 1⟩, ⟨3, 1, 1⟩] = false ∧
    3 ≤ ([⟨0, 4, 1⟩, ⟨1, 4, 1⟩, ⟨2, 1, 1⟩, ⟨3, 1, 1⟩] : List TrajEntry).length ∧
    preDecisionCalmSpec
      [⟨0, 4, 1⟩, ⟨1, 4, 1⟩, ⟨2, 1, 1⟩, ⟨3, 1, 1⟩] = true := by
  refine ⟨rfl, by simp, ?_⟩
  have hsplit : pythonSplit 4 = 2 := by decide
  simp only [preDecisionCalmSpec, List.map_cons, List.map_nil, List.length_cons,
    List.length_nil, hsplit, List.take, List.drop, meanQ, decide_eq_true_eq]
  norm_num

/-- C6 (amended). For every risk-score history with at least 5 data points
(the source's minimum for this detector — series of 3 or 4 points never
flag), `_detect_pre_decision_calm` fires exactly when the claimed means
condition holds; and whenever the pre-decision-calm flag is set the risk
multiplier contains the factor 3.0. -/
theorem preDecisionCalm_spec_iff (history : List TrajEntry)
    (h5 : 5 ≤ history.length) (p : PatternFlags) :
    (detectPreDecisionCalm history = true ↔ preDecisionCalmSpec history = true) ∧
    (p.preDecisionCalm = true →
      calculateRiskMultiplier p =
        3 * calculateRiskMultiplier { p with preDecisionCalm := false }) := by
  constructor
  · have h5' : ¬history.length < 5 := by omega
    have hlt : pythonSplit history.length < history.length := pythonSplit_lt (by omega)
    have hpos : 1 ≤ pythonSplit history.length := pythonSplit_pos (by omega)
    have hf : ¬min (pythonSplit history.length) history.length = 0 := by omega
    have hl : ¬history.length - pythonSplit history.length = 0 := by omega
    simp [detectPreDecisionCalm, preDecisionCalmSpec, h5', hf, hl]
  · intro hc
    obtain ⟨r, c, ch, cy, d⟩ := p
    simp only at hc
    subst hc
    cases r <;> cases ch <;> cases d <;>
      simp [calculateRiskMultiplier] <;> ring

/-- C6 witness: the 7-point series [4,4,4,4,1,1,1] satisfies the means
condition, so the detector fires, and a fired pre-decision-calm flag
contributes the factor 3.0 to the risk multiplier. -/
theorem preDecisionCalm_spec_iff_witness :
    detectPreDecisionCalm
      [⟨0, 4, 1⟩, ⟨1, 4, 1⟩, ⟨2, 4, 1⟩, ⟨3, 4, 1⟩, ⟨4, 1, 1⟩, ⟨5, 1, 1⟩, ⟨6, 1, 1⟩] = true ∧
    calculateRiskMultiplier ⟨false, true, false, false, false⟩ =
      3 * calculateRiskMultiplier ⟨false, false, false, false, false⟩ := by
  constructor
  · apply (preDecisionCalm_spec_iff
      [⟨0, 4, 1⟩, ⟨1, 4, 1⟩, ⟨2, 4, 1⟩, ⟨3, 4, 1⟩, ⟨4, 1, 1⟩, ⟨5, 1, 1⟩, ⟨6, 1, 1⟩]
      (by simp) ⟨false, true, false, false, false⟩).1.mpr
    have hsplit : pythonSplit 7 = 4 := by decide
    simp only [preDecisionCalmSpec, List.map_cons, List.map_nil, List.length_cons,
      List.length_nil, hsplit, List.take, List.drop, meanQ, decide_eq_true_eq]
    norm_num
  · exact (preDecisionCalm_spec_iff
      [⟨0, 4, 1⟩, ⟨1, 4, 1⟩, ⟨2, 4, 1⟩, ⟨3, 4, 1⟩, ⟨4, 1, 1⟩, ⟨5, 1, 1⟩, ⟨6, 1, 1⟩]
      (by simp) ⟨false, true, false, false, false⟩).2 rfl

-- Scenario D of the spec, checked against the full trajectory analysis:
-- [1,1,1,1,4,4,4] over 7 days does not flag pre-decision calm, while
-- [4,4,4,4,1,1,1] flags it and yields risk multiplier exactly 3.0.
example :
    (analyzeTrajectory
      [⟨0, 1, 1⟩, ⟨1, 1, 1⟩, ⟨2, 1, 1⟩, ⟨3, 1, 1⟩, ⟨4, 4, 1⟩, ⟨5, 4, 1⟩,
       ⟨6, 4, 1⟩]).patternDetails.preDecisionCalm = false := by
  have hsplit : pythonSplit 7 = 4 := by decide
  simp [analyzeTrajectory, detectPatterns, detectPreDecisionCalm, hsplit, meanQ]
  norm_num

example :
    (analyzeTrajectory
      [⟨0, 4, 1⟩, ⟨1, 4, 1⟩, ⟨2, 4, 1⟩, ⟨3, 4, 1⟩, ⟨4, 1, 1⟩, ⟨5, 1, 1⟩,
       ⟨6, 1, 1⟩]).patternDetails.preDecisionCalm = true ∧
    (analyzeTrajectory
      [⟨0, 4, 1⟩, ⟨1, 4, 1⟩, ⟨2, 4, 1⟩, ⟨3, 4, 1⟩, ⟨4, 1, 1⟩, ⟨5, 1, 1⟩,
       ⟨6, 1, 1⟩]).riskMultiplier = 3 := by
  have hsplit : pythonSplit 7 = 4 := by decide
  constructor <;>
    · simp [analyzeTrajectory, detectPatterns, detectPreDecisionCalm,
        detectCyclicalPattern, cyclicalSignChanges, detectDisengagement,
        calculateRiskMultiplier, calculateVelocity, calculateAcceleration,
        daysBetween, hsplit, meanQ, varQ]
      norm_num

/-- The cyclical fraction as the claim words it: the number of sign changes
among the successive differences, divided by the number of differences. -/
def cyclicalFractionSpec (scores : List ℚ) : ℚ :=
  (cyclicalSignChanges scores : ℚ) / ((scores.length : ℚ) - 1)

/-- C7 counterexample: the 6-point series [1,2,1,2,1,1] has 3 sign changes
among its 5 successive differences — a fraction of 3/5 > 0.5 — yet
`_detect_cyclical_pattern` returns false, because the source compares the
sign-change count against `len(scores) * 0.5 = 3`, not against a fraction of
the differences. -/
theorem cyclical_fraction_counterexample :
    detectCyclicalPattern [1, 2, 1, 2, 1, 1] = false ∧
    6 ≤ ([1, 2, 1, 2, 1, 1] : List ℚ).length ∧
    cyclicalFractionSpec [1, 2, 1, 2, 1, 1] > 1 / 2 := by
  have hch : cyclicalSignChanges [1, 2, 1, 2, 1, 1] = 3 := by
    simp [cyclicalSignChanges, List.zip]
  refine ⟨?_, by simp, ?_⟩
  · simp [detectCyclicalPattern, hch]
    norm_num
  · simp [cyclicalFractionSpec, hch]
    norm_num

/-- C7 (amended). For every risk-score series of at least 6 points,
`_detect_cyclical_pattern` flags cyclical exactly when the number of sign
changes among successive differences exceeds half the number of data points
(`sign_changes > len(scores) * 0.5`) — not when the fraction of sign changes
among the differences exceeds 0.5. -/
theorem cyclical_spec_iff (scores : List ℚ) (h6 : 6 ≤ scores.length) :
    detectCyclicalPattern scores = true ↔
      2 * cyclicalSignChanges scores > scores.length := by
  rw [detectCyclicalPattern, if_neg (by omega)]
  rw [decide_eq_true_eq]
  constructor
  · intro h
    have h2 : (scores.length : ℚ) < 2 * (cyclicalSignChanges scores : ℚ) := by
      linarith
    exact_mod_cast h2
  · intro h
    have h2 : (scores.length : ℚ) < 2 * (cyclicalSignChanges scores : ℚ) := by
      exact_mod_cast h
    linarith

/-- C7 witness: [1,3,1,3,1,3] has 4 sign changes among 5 differences, and the
detector fires. -/
theorem cyclical_spec_iff_witness :
    detectCyclicalPattern [1, 3, 1, 3, 1, 3] = true := by
  apply (cyclical_spec_iff [1, 3, 1, 3, 1, 3] (by simp)).mpr
  have hch : cyclicalSignChanges [1, 3, 1, 3, 1, 3] = 4 := by
    simp [cyclicalSignChanges, List.zip]
  simp [hch]

/-- The risk code a suicidal-ideation factor contributes (0 = none). -/
def siCode : Option SuicidalIdeationFactor → ℕ
  | some si => if si.present then 4 else 0
  | none => 0

/-- The risk code a depression factor contributes by PHQ-9 band (0 = none). -/
def depCode : Option DepressionSeverityFactor → ℕ
  | some d =>
    if 20 ≤ d.estimatedPhq9 then 4
    else if 15 ≤ d.estimatedPhq9 then 3
    else if 10 ≤ d.estimatedPhq9 then 2
    else 0
  | none => 0

/-- The risk code a behaviour-change factor contributes (0 = none). -/
def behCode : Option BehaviorChangeFactor → ℕ
  | some b => if b.concern = "HIGH" then 3 else if b.concern = "MEDIUM" then 2 else 0
  | none => 0

/-- The largest risk code the temporal patterns contribute (0 = none). -/
def temporalMaxCode (tin : TemporalInput) : ℕ :=
  if tin.useSnapshotOnly then 0
  else
    max (if tin.rapidDeterioration then 3 else 0)
      (max (if tin.preDecisionCalm then 4 else 0)
        (max (if tin.chronicElevated then 2 else 0)
          (if tin.disengagement then 2 else 0)))

/-- The maximum contributing risk code across factors and temporal patterns. -/
def maxRiskCode (rf : RiskFactors) (tin : TemporalInput) : ℕ :=
  max (siCode rf.suicidalIdeation)
    (max (depCode rf.depressionSeverity)
      (max (behCode rf.behaviorChange) (temporalMaxCode tin)))

/-- The risk level implied by a maximum code. -/
def levelOfCode (n : ℕ) : RiskLevel :=
  if 4 ≤ n then RiskLevel.CRISIS
  else if 3 ≤ n then RiskLevel.HIGH
  else if 2 ≤ n then RiskLevel.MEDIUM
  else RiskLevel.LOW

/-- Folding `max` over an append takes the maximum of the two folds. -/
theorem foldr_max_append (l1 l2 : List ℕ) :
    (l1 ++ l2).foldr max 0 = max (l1.foldr max 0) (l2.foldr max 0) := by
  induction l1 with
  | nil => simp
  | cons a t ih => simp [ih, Nat.max_assoc]

/-- The suicidal-ideation chunk folds to its code. -/
theorem foldr_siScores (o : Option SuicidalIdeationFactor) :
    (siScores o).foldr max 0 = siCode o := by
  cases o with
  | none => rfl
  | some si => by_cases h : si.present <;> simp [siScores, siCode, h]

/-- The depression chunk folds to its code. -/
theorem foldr_depScores (o : Option DepressionSeverityFactor) :
    (depScores o).foldr max 0 = depCode o := by
  cases o with
  | none => rfl
  | some d =>
    simp only [depScores, depCode]
    split_ifs <;> simp

/-- The behaviour-change chunk folds to its code. -/
theorem foldr_behScores (o : Option BehaviorChangeFactor) :
    (behScores o).foldr max 0 = behCode o := by
  cases o with
  | none => rfl
  | some b =>
    simp only [behScores, behCode]
    split_ifs <;> simp

/-- The temporal chunk folds to the maximum fired pattern code. -/
theorem foldr_temporalScores (tin : TemporalInput) :
    (temporalScores tin).foldr max 0 = temporalMaxCode tin := by
  obtain ⟨snap, rp, calm, chron, dis, vc⟩ := tin
  cases snap <;> cases rp <;> cases calm <;> cases chron <;> cases dis <;> rfl

/-- The fold of the source's `risk_scores` list equals the maximum
contributing code. -/
theorem foldr_riskScores (rf : RiskFactors) (tin : TemporalInput) :
    (riskScores rf tin).foldr max 0 = maxRiskCode rf tin := by
  rw [riskScores, foldr_max_append, foldr_max_append, foldr_max_append,
    foldr_siScores, foldr_depScores, foldr_behScores, foldr_temporalScores,
    maxRiskCode]
  simp only [max_assoc]

/-- Each `risk_scores` chunk is empty exactly when its code is 0, so the whole
list is empty exactly when no code is contributed. -/
theorem maxRiskCode_eq_zero_of_nil (rf : RiskFactors) (tin : TemporalInput)
    (he : riskScores rf tin = []) : maxRiskCode rf tin = 0 := by
  rw [← foldr_riskScores, he]
  rfl

/-- Each of the next four lemmas shows that a `confidence_scores` chunk being
empty forces the corresponding `risk_scores` chunk to be empty: every code
append site in the source is paired with a confidence append. -/
theorem siScores_nil_of_confs (o : Option SuicidalIdeationFactor)
    (h : siConfs o = []) : siScores o = [] := by
  cases o with
  | none => rfl
  | some si => by_cases hp : si.present <;> simp_all [siConfs, siScores]

theorem depScores_nil_of_confs (o : Option DepressionSeverityFactor)
    (h : depConfs o = []) : depScores o = [] := by
  cases o with
  | none => rfl
  | some d => simp [depConfs] at h

theorem behScores_nil_of_confs (o : Option BehaviorChangeFactor)
    (h : behConfs o = []) : behScores o = [] := by
  cases o with
  | none => rfl
  | some b => simp [behConfs] at h

theorem temporalScores_nil_of_confs (tin : TemporalInput)
    (h : temporalConfs tin = []) : temporalScores tin = [] := by
  obtain ⟨snap, rp, calm, chron, dis, vc⟩ := tin
  cases snap <;> cases rp <;> cases calm <;> cases chron <;> cases dis <;>
    first
      | rfl
      | (exfalso; simp [temporalConfs] at h)

theorem confidenceScores_ne_nil (rf : RiskFactors) (tin : TemporalInput)
    (h : riskScores rf tin ≠ []) : confidenceScores rf tin ≠ [] := by
  contrapose! h
  rw [confidenceScores] at h
  simp only [List.append_eq_nil] at h
  obtain ⟨⟨⟨hsi, hdep⟩, hbeh⟩, htmp⟩ := h
  rw [riskScores, siScores_nil_of_confs _ hsi, depScores_nil_of_confs _ hdep,
    behScores_nil_of_confs _ hbeh, temporalScores_nil_of_confs _ htmp]
  rfl

/-- `_calculate_overall_risk` returns the level of the maximum contributing
code. -/
theorem calculateOverallRisk_fst (rf : RiskFactors) (tin : TemporalInput) :
    (calculateOverallRisk rf tin).1 = levelOfCode (maxRiskCode rf tin) := by
  by_cases h : riskScores rf tin = []
  · have h0 : maxRiskCode rf tin = 0 := maxRiskCode_eq_zero_of_nil rf tin h
    simp [calculateOverallRisk, h, h0, levelOfCode]
  · simp [calculateOverallRisk, h, levelOfCode, foldr_riskScores]

/-- When a risk code was contributed, `_calculate_overall_risk`'s confidence
is the arithmetic mean of the contributed confidences. -/
theorem calculateOverallRisk_snd (rf : RiskFactors) (tin : TemporalInput)
    (h : riskScores rf tin ≠ []) :
    (calculateOverallRisk rf tin).2 = meanQ (confidenceScores rf tin) := by
  have hc := confidenceScores_ne_nil rf tin h
  simp [calculateOverallRisk, h, hc, meanQ]

/-- Monotonicity of the code-to-level mapping. -/
theorem levelOfCode_code_mono {n m : ℕ} (h : n ≤ m) :
    (levelOfCode n).code ≤ (levelOfCode m).code := by
  unfold levelOfCode
  split_ifs <;> simp [RiskLevel.code] <;> omega

/-- The confidence rule as claim C3 words it: the arithmetic mean of all
contributing confidences, 0.5 when none contribute.  Stated for comparison
with `calculateOverallRisk`. -/
def claimedConfidence (rf : RiskFactors) (tin : TemporalInput) : ℚ :=
  if confidenceScores rf tin = [] then 1 / 2
  else meanQ (confidenceScores rf tin)

/-- C3 counterexample: a depression factor with a validated PHQ-9 of 5 and
confidence 0.9 contributes its confidence but no risk code; the claim's rule
gives mean confidence 0.9, but `_calculate_overall_risk` short-circuits on
the empty `risk_scores` list and returns (LOW, 0.5). -/
theorem overallRisk_confidence_counterexample :
    calculateOverallRisk ⟨none, some ⟨5, 9 / 10⟩, none⟩
      ⟨false, false, false, false, false, 4 / 5⟩ = (RiskLevel.LOW, 1 / 2) ∧
    claimedConfidence ⟨none, some ⟨5, 9 / 10⟩, none⟩
      ⟨false, false, false, false, false, 4 / 5⟩ = 9 / 10 ∧
    (1 : ℚ) / 2 ≠ 9 / 10 := by
  refine ⟨?_, ?_, by norm_num⟩ <;>
    norm_num [calculateOverallRisk, claimedConfidence, riskScores, confidenceScores,
      siScores, depScores, behScores, temporalScores, siConfs, depConfs, behConfs,
      temporalConfs, meanQ]

/-- C3 (amended). `_calculate_overall_risk` returns the risk level of the
maximum contributing code (CRISIS=4, HIGH=3, MEDIUM=2, LOW when none); its
confidence is the arithmetic mean of all contributed confidences whenever at
least one risk code is present, but when no code is present it returns
(LOW, 0.5) even if present factors contributed confidences. -/
theorem calculateOverallRisk_spec (rf : RiskFactors) (tin : TemporalInput) :
    (calculateOverallRisk rf tin).1 = levelOfCode (maxRiskCode rf tin) ∧
    (riskScores rf tin = [] → calculateOverallRisk rf tin = (RiskLevel.LOW, 1 / 2)) ∧
    (riskScores rf tin ≠ [] →
      (calculateOverallRisk rf tin).2 = meanQ (confidenceScores rf tin)) := by
  refine ⟨calculateOverallRisk_fst rf tin, ?_, calculateOverallRisk_snd rf tin⟩
  intro h
  simp [calculateOverallRisk, h]

/-- C3 witness: a present suicidal-ideation factor with confidence 0.9 yields
the level of the maximum code and the mean of the contributed confidences. -/
theorem calculateOverallRisk_spec_witness :
    (calculateOverallRisk ⟨some ⟨true, 9 / 10⟩, none, none⟩
      ⟨false, false, false, false, false, 4 / 5⟩).1 =
      levelOfCode (maxRiskCode ⟨some ⟨true, 9 / 10⟩, none, none⟩
        ⟨false, false, false, false, false, 4 / 5⟩) ∧
    (calculateOverallRisk ⟨some ⟨true, 9 / 10⟩, none, none⟩
      ⟨false, false, false, false, false, 4 / 5⟩).2 =
      meanQ (confidenceScores ⟨some ⟨true, 9 / 10⟩, none, none⟩
        ⟨false, false, false, false, false, 4 / 5⟩) :=
  ⟨(calculateOverallRisk_spec _ _).1,
   (calculateOverallRisk_spec _ _).2.2 (by
     simp [riskScores, siScores, depScores, behScores, temporalScores])⟩

/-- C9. Raising the risk code contributed by any single factor (or several)
while holding the others and the temporal patterns fixed never decreases the
overall risk level returned by `_calculate_overall_risk`. -/
theorem overallRisk_monotone (rf₁ rf₂ : RiskFactors) (tin : TemporalInput)
    (hsi : siCode rf₁.suicidalIdeation ≤ siCode rf₂.suicidalIdeation)
    (hdep : depCode rf₁.depressionSeverity ≤ depCode rf₂.depressionSeverity)
    (hbeh : behCode rf₁.behaviorChange ≤ behCode rf₂.behaviorChange) :
    ((calculateOverallRisk rf₁ tin).1).code ≤ ((calculateOverallRisk rf₂ tin).1).code := by
  rw [calculateOverallRisk_fst, calculateOverallRisk_fst]
  apply levelOfCode_code_mono
  unfold maxRiskCode
  exact max_le_max hsi (max_le_max hdep (max_le_max hbeh le_rfl))

/-- C9 witness: moving a depression factor from the MEDIUM band (PHQ-9 12) to
the HIGH band (PHQ-9 16) does not decrease the overall level. -/
theorem overallRisk_monotone_witness :
    ((calculateOverallRisk ⟨none, some ⟨12, 1 / 2⟩, none⟩
      ⟨false, false, false, false, false, 4 / 5⟩).1).code ≤
    ((calculateOverallRisk ⟨none, some ⟨16, 1 / 2⟩, none⟩
      ⟨false, false, false, false, false, 4 / 5⟩).1).code :=
  overallRisk_monotone _ _ _ (by simp [siCode]) (by norm_num [depCode])
    (by simp [behCode])

/-- A nonempty list of values in [0, 1] has its mean in [0, 1]. -/
theorem meanQ_bounds (l : List ℚ) (hne : l ≠ [])
    (hb : ∀ x ∈ l, 0 ≤ x ∧ x ≤ 1) : 0 ≤ meanQ l ∧ meanQ l ≤ 1 := by
  have hlen : 0 < (l.length : ℚ) := by
    have := List.length_pos.mpr hne
    exact_mod_cast this
  have hsum0 : 0 ≤ l.sum := List.sum_nonneg fun x hx => (hb x hx).1
  have hsum1 : l.sum ≤ (l.length : ℚ) := by
    have := List.sum_le_card_nsmul l 1 fun x hx => (hb x hx).2
    simpa using this
  constructor
  · exact div_nonneg hsum0 hlen.le
  · rw [meanQ, div_le_one hlen]
    exact hsum1

/-- All confidences the factors can put into `RiskFactors` after pydantic
validation are in [0, 1]. -/
def factorsConfBounded (rf : RiskFactors) : Prop :=
  (∀ f, rf.suicidalIdeation = some f → 0 ≤ f.confidence ∧ f.confidence ≤ 1) ∧
  (∀ f, rf.depressionSeverity = some f → 0 ≤ f.confidence ∧ f.confidence ≤ 1) ∧
  (∀ f, rf.behaviorChange = some f → 0 ≤ f.confidence ∧ f.confidence ≤ 1)

/-- A successful `RiskFactors` construction only contains validated
confidences. -/
theorem toRiskFactors_bounded (si : Option AssessedSI) (dep : Option AssessedDep)
    (beh : Option AssessedBeh) (rf : RiskFactors)
    (h : toRiskFactors si dep beh = .ok rf) : factorsConfBounded rf := by
  rw [toRiskFactors] at h
  split at h
  case isFalse => exact absurd h (by simp)
  case isTrue hv =>
    simp only [Except.ok.injEq] at h
    subst h
    simp only [Bool.and_eq_true] at hv
    obtain ⟨⟨h1, h2⟩, h3⟩ := hv
    refine ⟨?_, ?_, ?_⟩
    · intro f hf
      cases si with
      | none => simp at hf
      | some a =>
        simp only [Option.map_some', Option.some.injEq] at hf
        subst hf
        simpa [confInRange, Option.all, decide_eq_true_eq] using h1
    · intro f hf
      cases dep with
      | none => simp at hf
      | some a =>
        simp only [Option.map_some', Option.some.injEq] at hf
        subst hf
        simpa [confInRange, Option.all, decide_eq_true_eq] using h2
    · intro f hf
      cases beh with
      | none => simp at hf
      | some a =>
        simp only [Option.map_some', Option.some.injEq] at hf
        subst hf
        simpa [confInRange, Option.all, decide_eq_true_eq] using h3

/-- Every entry of `confidence_scores` is in [0, 1] once the factors are
validated and the velocity-confidence default is. -/
theorem confidenceScores_bounds (rf : RiskFactors) (tin : TemporalInput)
    (hrf : factorsConfBounded rf)
    (hvc : 0 ≤ tin.velocityConfidence ∧ tin.velocityConfidence ≤ 1) :
    ∀ x ∈ confidenceScores rf tin, 0 ≤ x ∧ x ≤ 1 := by
  obtain ⟨hsi, hdep, hbeh⟩ := hrf
  intro x hx
  rw [confidenceScores] at hx
  simp only [List.mem_append] at hx
  rcases hx with ((hx | hx) | hx) | hx
  · cases ho : rf.suicidalIdeation with
    | none => rw [ho] at hx; simp [siConfs] at hx
    | some f =>
      rw [ho] at hx
      by_cases hp : f.present
      · simp only [siConfs, hp, if_true, List.mem_singleton] at hx
        subst hx
        exact hsi f ho
      · simp [siConfs, hp] at hx
  · cases ho : rf.depressionSeverity with
    | none => rw [ho] at hx; simp [depConfs] at hx
    | some f =>
      rw [ho] at hx
      simp only [depConfs, List.mem_singleton] at hx
      subst hx
      exact hdep f ho
  · cases ho : rf.behaviorChange with
    | none => rw [ho] at hx; simp [behConfs] at hx
    | some f =>
      rw [ho] at hx
      simp only [behConfs, List.mem_singleton] at hx
      subst hx
      exact hbeh f ho
  · rw [temporalConfs] at hx
    split at hx
    · simp only [List.mem_append] at hx
      rcases hx with ((hx | hx) | hx) | hx <;> split at hx <;>
        simp only [List.mem_singleton, List.not_mem_nil] at hx <;>
        first
          | exact absurd hx (by simp)
          | (subst hx; first | exact hvc | constructor <;> norm_num)
    · simp at hx

/-- The confidence computed by `_calculate_overall_risk` stays in [0, 1] on
validated factors. -/
theorem calculateOverallRisk_confidence_in_range (rf : RiskFactors)
    (tin : TemporalInput) (hrf : factorsConfBounded rf)
    (hvc : 0 ≤ tin.velocityConfidence ∧ tin.velocityConfidence ≤ 1) :
    0 ≤ (calculateOverallRisk rf tin).2 ∧ (calculateOverallRisk rf tin).2 ≤ 1 := by
  by_cases h : riskScores rf tin = []
  · simp [calculateOverallRisk, h]
    norm_num
  · rw [calculateOverallRisk_snd rf tin h]
    exact meanQ_bounds _ (confidenceScores_ne_nil rf tin h)
      (confidenceScores_bounds rf tin hrf hvc)

/-- C2. Every `RiskProfile` that `RiskCalculator.calculate_risk` actually
produces has `confidence ∈ [0, 1]`, whatever the text-generation collaborator
returned for the contextual suicidal-ideation and depression analyses: the
factor confidences are schema-validated on construction (an out-of-range
value raises instead of producing a profile), the temporal confidences are
the constants 0.8 / 0.95 / 0.7 / 0.6, and a mean of values in [0, 1] stays in
[0, 1]. -/
theorem calculateRisk_confidence_in_range (messageText : String) (ctx : Context)
    (w : CalcWorld) (inds : List String) (r : RiskResult)
    (h : calculateRisk messageText ctx w inds = .ok r) :
    0 ≤ r.confidence ∧ r.confidence ≤ 1 := by
  rw [calculateRisk] at h
  rcases htf : toRiskFactors (assessSuicidalIdeation messageText ctx w.siCall w.hasLLM)
      (assessDepressionSeverity messageText ctx w.latestPHQ9 w.depCall w.hasLLM)
      (assessBehaviorChange ctx) with e | rf
  · rw [htf] at h
    exact absurd h (by simp)
  · rw [htf] at h
    simp only [Except.ok.injEq] at h
    subst h
    exact calculateOverallRisk_confidence_in_range rf _
      (toRiskFactors_bounded _ _ _ rf htf)
      ⟨by norm_num [toTemporalInput], by norm_num [toTemporalInput]⟩

/-- C2 witness: on an empty context with no collaborator, `calculate_risk`
produces the default (LOW, 0.5) profile, whose confidence is in range. -/
theorem calculateRisk_confidence_in_range_witness :
    0 ≤ (⟨RiskLevel.LOW, 1 / 2, ⟨none, none, none⟩, "continue_monitoring", [],
        ⟨false, "NONE", 1 / 2, "", 25 / 2⟩⟩ : RiskResult).confidence ∧
    (⟨RiskLevel.LOW, 1 / 2, ⟨none, none, none⟩, "continue_monitoring", [],
        ⟨false, "NONE", 1 / 2, "", 25 / 2⟩⟩ : RiskResult).confidence ≤ 1 := by
  apply calculateRisk_confidence_in_range "hello"
    ⟨[], false, 0, false, false, none, 0, []⟩ ⟨[], none, .genError, .genError, false⟩ []
  have hkw : fallbackKeywordMatch "hello" = false := by decide
  norm_num [calculateRisk, analyzeTrajectory, assessSuicidalIdeation,
    assessDepressionSeverity, assessBehaviorChange, analyzeContextualRisk,
    fallbackKeywordAnalysis, hkw, crisisKeywordFlags, toRiskFactors, confInRange,
    calculateOverallRisk, riskScores, confidenceScores, siScores, depScores,
    behScores, temporalScores, siConfs, depConfs, behConfs, temporalConfs,
    toTemporalInput, determineAction, generateAlertRecommendation, RiskLevel.code]
  simp

/-- When the depression-side LLM call raises, every depression factor the
assessor can still return has a valid confidence (0.9 validated-assessment,
0.4 heuristic, or no factor). -/
theorem assessDep_conf_valid (messageText : String) (ctx : Context)
    (p : Option ℤ) :
    Option.all (fun f => confInRange f.confidence)
      (assessDepressionSeverity messageText ctx p .genError true) = true := by
  cases p with
  | some score => norm_num [assessDepressionSeverity, confInRange]
  | none =>
    simp [assessDepressionSeverity, analyzeContextualRisk,
      fallbackKeywordAnalysis, confInRange]
    split_ifs <;> norm_num

/-- Every behaviour-change factor has a valid confidence (0.88 or 0.75). -/
theorem assessBeh_conf_valid (ctx : Context) :
    Option.all (fun f => confInRange f.confidence)
      (assessBehaviorChange ctx) = true := by
  rw [assessBehaviorChange]
  split_ifs <;> norm_num [confInRange]

/-- C5. For a message matching a suicidal-ideation keyword pattern, with no
safety flags and no positive C-SSRS score in context, a connectivity error
from the text-generation collaborator during contextual analysis still yields
a suicidal-ideation factor with `present = true`, `confidence = 0.3` and
`requires_human_review = true`, and `calculate_risk` completes normally
(returns a profile instead of propagating the error), recording that factor. -/
theorem assessSI_llm_error_fallback (messageText : String) (ctx : Context)
    (w : CalcWorld) (inds : List String)
    (hkw : fallbackKeywordMatch messageText = true)
    (hflags : ctx.safetyFlags = [])
    (hcrisis : ctx.crisisDetected = false)
    (hcssrs : ∀ s, ctx.cssrsScore = some s → s ≤ 0)
    (hsi : w.siCall = .genError)
    (hdep : w.depCall = .genError)
    (hllm : w.hasLLM = true) :
    assessSuicidalIdeation messageText ctx w.siCall w.hasLLM =
      some ⟨true, 3 / 10, none, true⟩ ∧
    ∃ r, calculateRisk messageText ctx w inds = .ok r ∧
      r.riskFactors.suicidalIdeation = some ⟨true, 3 / 10⟩ := by
  have h1 : assessSuicidalIdeation messageText ctx w.siCall w.hasLLM =
      some ⟨true, 3 / 10, none, true⟩ := by
    rcases hs : ctx.cssrsScore with _ | s
    · simp [assessSuicidalIdeation, hflags, hcrisis, hsi, hllm, hs,
        analyzeContextualRisk, fallbackKeywordAnalysis, hkw]
    · have hle := hcssrs s hs
      have hnp : ¬(s > 0) := by omega
      simp [assessSuicidalIdeation, hflags, hcrisis, hsi, hllm, hs, hnp,
        analyzeContextualRisk, fallbackKeywordAnalysis, hkw]
  refine ⟨h1, ?_⟩
  rw [calculateRisk, h1, hdep, hllm]
  have hv : toRiskFactors (some ⟨true, 3 / 10, none, true⟩)
      (assessDepressionSeverity messageText ctx w.latestPHQ9 .genError true)
      (assessBehaviorChange ctx) =
      .ok ⟨some ⟨true, 3 / 10⟩,
        (assessDepressionSeverity messageText ctx w.latestPHQ9 .genError true).map
          fun f => ⟨f.estimatedPhq9, f.confidence⟩,
        (assessBehaviorChange ctx).map fun f => ⟨f.concern, f.confidence⟩⟩ := by
    rw [toRiskFactors, if_pos]
    · rfl
    · rw [assessDep_conf_valid, assessBeh_conf_valid]
      norm_num [confInRange, Option.all]
  rw [hv]
  exact ⟨_, rfl, by simp⟩

/-- C5 witness: the message "I want to end it all" with an empty context and
an erroring collaborator yields the 0.3-confidence human-review factor and a
completed risk profile. -/
theorem assessSI_llm_error_fallback_witness :
    assessSuicidalIdeation "I want to end it all"
      ⟨[], false, 0, false, false, none, 0, []⟩ LLMOutcome.genError true =
      some ⟨true, 3 / 10, none, true⟩ ∧
    ∃ r, calculateRisk "I want to end it all"
      ⟨[], false, 0, false, false, none, 0, []⟩
      ⟨[], none, .genError, .genError, true⟩ [] = .ok r ∧
      r.riskFactors.suicidalIdeation = some ⟨true, 3 / 10⟩ :=
  assessSI_llm_error_fallback "I want to end it all"
    ⟨[], false, 0, false, false, none, 0, []⟩
    ⟨[], none, .genError, .genError, true⟩ []
    (by decide) rfl rfl (by intro s hs; cases hs) rfl rfl rfl

/-- C1. When checkpoint 1 detects a crisis, `process_message` returns the
fixed crisis-protocol message with `crisis_protocol_triggered = true`
whatever the risk calculation computes (the conclusion holds for every
`World`); the audit trail shows exactly checkpoints 1 and 2 — reply
generation never runs (the result is invariant under the reply generator's
outcome) — while context enrichment runs and `calculate_risk` is still
invoked on the enriched context with the crisis concern indicator. -/
theorem processMessage_crisis_branch (w : World) (messageText : String)
    (h : (screenImmediate messageText).crisisDetected = true) :
    ∃ a, processMessage w messageText = .ok a ∧
      a.responseText = some crisisProtocolMessage ∧
      a.crisisProtocolTriggered = true ∧
      a.checkpoints = [⟨"IMMEDIATE_SAFETY_SCREEN", false⟩, ⟨"CONTEXT_ENRICHMENT", true⟩] ∧
      (∀ cp ∈ a.checkpoints, cp.name ≠ "LLM_GENERATION") ∧
      a.riskProfile = (calculateRisk messageText
        (enrichContext w (screenImmediate messageText)) w.calc
        ["crisis_detected"]).toOption ∧
      (∀ g, processMessage { w with llmGen := g } messageText =
        processMessage w messageText) := by
  have hp : processMessage w messageText = .ok
      { checkpoints := [⟨"IMMEDIATE_SAFETY_SCREEN", false⟩, ⟨"CONTEXT_ENRICHMENT", true⟩]
        concernIndicators := []
        safetyFlags := []
        riskProfile := (calculateRisk messageText
          (enrichContext w (screenImmediate messageText)) w.calc
          ["crisis_detected"]).toOption
        responseGenerated := true
        responseText := some crisisProtocolMessage
        crisisProtocolTriggered := true } := by
    simp [processMessage, h]
  refine ⟨_, hp, rfl, rfl, rfl, ?_, rfl, ?_⟩
  · intro cp hcp
    simp only [List.mem_cons, List.not_mem_nil, or_false] at hcp
    rcases hcp with rfl | rfl <;> decide
  · intro g
    have hp2 : processMessage { w with llmGen := g } messageText = .ok
        { checkpoints := [⟨"IMMEDIATE_SAFETY_SCREEN", false⟩, ⟨"CONTEXT_ENRICHMENT", true⟩]
          concernIndicators := []
          safetyFlags := []
          riskProfile := (calculateRisk messageText
            (enrichContext w (screenImmediate messageText)) w.calc
            ["crisis_detected"]).toOption
          responseGenerated := true
          responseText := some crisisProtocolMessage
          crisisProtocolTriggered := true } := by
      simp [processMessage, h, enrichContext, World.calc]
    rw [hp, hp2]

/-- C1 witness: "I want to kill myself" trips checkpoint 1 and takes the
crisis branch. -/
theorem processMessage_crisis_branch_witness :
    ∃ a, processMessage
        ⟨0, false, false, [], none, .genError, .genError, true, none, false, none⟩
        "I want to kill myself" = .ok a ∧
      a.responseText = some crisisProtocolMessage ∧
      a.crisisProtocolTriggered = true ∧
      a.checkpoints = [⟨"IMMEDIATE_SAFETY_SCREEN", false⟩, ⟨"CONTEXT_ENRICHMENT", true⟩] ∧
      (∀ cp ∈ a.checkpoints, cp.name ≠ "LLM_GENERATION") ∧
      a.riskProfile = (calculateRisk "I want to kill myself"
        (enrichContext ⟨0, false, false, [], none, .genError, .genError, true, none, false, none⟩
          (screenImmediate "I want to kill myself"))
        (World.calc ⟨0, false, false, [], none, .genError, .genError, true, none, false, none⟩)
        ["crisis_detected"]).toOption ∧
      (∀ g, processMessage
          { conversationHistoryLen := 0, hasBaseline := false,
            baselineTypicalSentiment := false, history := [], latestPHQ9 := none,
            siCall := .genError, depCall := .genError, hasLLM := true,
            llmGen := g, emojiGenuineDistress := false, concernCall := none }
          "I want to kill myself" =
        processMessage
          ⟨0, false, false, [], none, .genError, .genError, true, none, false, none⟩
          "I want to kill myself") :=
  processMessage_crisis_branch
    ⟨0, false, false, [], none, .genError, .genError, true, none, false, none⟩
    "I want to kill myself" (by decide)
